import Mathlib

/-!
Verification of the Microlearning-Content-Generator repository:
a shallow embedding of `backend/validators.py` and `backend/pipeline.py`
(the deterministic structural validators and the generate→format→validate→retry
pipeline state machine), together with theorems settling the specification
claims about them.

Python strings are modelled as Lean `String` (a wrapper around `List Char`);
the repository's content is ASCII, so Python's unicode-aware `str.strip`,
`str.lower`, `str.upper` and the `re` character classes are modelled on the
ASCII range.  Lines produced by `str.split('\n')` never contain `'\n'`, which
the regex models rely on (Python's `.` never matches a newline).
-/

namespace Microlearning

/-- The characters stripped by Python's `str.strip()` and matched by `\s`
(ASCII subset: space, tab, newline, carriage return, vertical tab, form feed). -/
def pyWs (c : Char) : Bool :=
  c = ' ' || c = '\t' || c = '\n' || c = '\r' || c = '\x0b' || c = '\x0c'

/-- Left strip: `dropWhile` whitespace. -/
def lstrip (l : List Char) : List Char := l.dropWhile pyWs

/-- Right strip: drop trailing whitespace. -/
def rstrip (l : List Char) : List Char := (l.reverse.dropWhile pyWs).reverse

/-- Python `str.strip()` on the character list. -/
def pyStripL (l : List Char) : List Char := rstrip (lstrip l)

/-- Python `str.strip()`. -/
def pyStrip (s : String) : String := ⟨pyStripL s.data⟩

/-- Python `str.lower()` per character (ASCII). -/
def pyLowerChar (c : Char) : Char :=
  if 'A' ≤ c && c ≤ 'Z' then Char.ofNat (c.toNat + 32) else c

/-- Python `str.upper()` per character (ASCII). -/
def pyUpperChar (c : Char) : Char :=
  if 'a' ≤ c && c ≤ 'z' then Char.ofNat (c.toNat - 32) else c

/-- Python `str.lower()`. -/
def pyLower (s : String) : String := ⟨s.data.map pyLowerChar⟩

/-- Python `str.upper()`. -/
def pyUpper (s : String) : String := ⟨s.data.map pyUpperChar⟩

/-- `listStarts sub l`: `l` begins with `sub` (character-exact). -/
def listStarts : List Char → List Char → Bool
  | [], _ => true
  | _ :: _, [] => false
  | a :: as, b :: bs => a = b && listStarts as bs

/-- Python `str.find(sub)`: index of the first occurrence, `none` if absent. -/
def findSub (sub : List Char) : List Char → Option Nat
  | [] => if sub.isEmpty then some 0 else none
  | c :: tl => if listStarts sub (c :: tl) then some 0 else (findSub sub tl).map (· + 1)

/-- Python `sub in s` on character lists. -/
def containsSub (sub l : List Char) : Bool := (findSub sub l).isSome

/-- Python `s.startswith(pre)`. -/
def pyStartsWith (s pre : String) : Bool := listStarts pre.data s.data

/-- Python `int(...)` on a digit string. -/
def pyStrToNat (s : String) : Nat :=
  s.data.foldl (fun a c => a * 10 + (c.toNat - 48)) 0

/-- Python `re.split(r'[,|]', s)`: split at every `,` or `|`, keeping empties. -/
def splitAnyAux (seps : List Char) : List Char → List Char → List (List Char)
  | [], cur => [cur.reverse]
  | c :: cs, cur =>
    if seps.contains c then cur.reverse :: splitAnyAux seps cs []
    else splitAnyAux seps cs (c :: cur)

def splitAny (seps : List Char) (l : List Char) : List (List Char) :=
  splitAnyAux seps l []

/-- Python `s.split('\n')` (single-character separator, empties kept;
`""` yields `[""]`). -/
def pySplitLines (s : String) : List String :=
  (splitAny ['\n'] s.data).map (fun l => (⟨l⟩ : String))

/-- Python `'\n'.join(...)`. -/
def joinNl : List String → String
  | [] => ""
  | [x] => x
  | x :: xs => x ++ "\n" ++ joinNl xs

/-- First character of a string (unreachable default: the callers only use it
on strings a regex has just matched non-empty, where Python indexes `[0]`). -/
def pyFirstChar (s : String) : Char := s.data.headD '\x00'

/-- Last character of a string (Python `[-1]`, same proviso). -/
def pyLastChar (s : String) : Char := s.data.getLastD '\x00'

/-! ### The regex patterns of `validators.py`, as deterministic matchers

Each Python `re.match` (anchored at the start) is translated into an
executable matcher whose backtracking behaviour on the pattern's alternations
and optional pieces is reproduced case by case. -/

/-- ASCII digit, Python `\d`. -/
def isDigitC (c : Char) : Bool := '0' ≤ c && c ≤ '9'

/-- Consume a literal keyword case-insensitively (`kw` given lowercase);
returns the rest of the input on success. -/
def ciEat : List Char → List Char → Option (List Char)
  | [], rest => some rest
  | _ :: _, [] => none
  | k :: ks, c :: cs => if pyLowerChar c = k then ciEat ks cs else none

/-- `\s+` (greedy): one or more whitespace characters. -/
def eatWs1 : List Char → Option (List Char)
  | c :: cs => if pyWs c then some (cs.dropWhile pyWs) else none
  | [] => none

/-- `\d+` (greedy): one or more digits. -/
def eatDigits1 : List Char → Option (List Char)
  | c :: cs => if isDigitC c then some (cs.dropWhile isDigitC) else none
  | [] => none

/-- `(\d+)` (greedy) returning the digit group and the rest. -/
def grabDigits1 (l : List Char) : Option (List Char × List Char) :=
  let d := l.takeWhile isDigitC
  if d.isEmpty then none else some (d, l.drop d.length)

/-- `:?\s*$`. -/
def colonWsEnd : List Char → Bool
  | ':' :: r => r.all pyWs
  | r => r.all pyWs

/-- `\s*(.+)$` on a newline-free tail: greedy `\s*`, then the group must be
non-empty; when the whole tail is whitespace the regex backtracks one
character, making the group the final character alone. -/
def wsStarDotPlus (l : List Char) : Option (List Char) :=
  let t := l.dropWhile pyWs
  if t.isEmpty then
    match l.getLast? with
    | some c => some [c]
    | none => none
  else some t

/-- The dash characters of the MCQ title pattern `[-–—]`. -/
def isDash (c : Char) : Bool := c = '-' || c = '–' || c = '—'

/-- `^Question\s+\d+(?:\s*[-–—]{1,2}\s*.+)?$`, IGNORECASE
(`MCQValidator.title_pattern`).  After the digits the line must end, or
(after optional whitespace) carry a dash followed by at least one more
character (which absorbs the `{1,2}`/`\s*`/`.+` backtracking cases). -/
def mcqTitleMatch (s : String) : Bool :=
  match ciEat "question".data s.data with
  | none => false
  | some r1 =>
    match eatWs1 r1 with
    | none => false
    | some r2 =>
      match eatDigits1 r2 with
      | none => false
      | some r3 =>
        r3.isEmpty ||
          (match r3.dropWhile pyWs with
           | c :: cs => isDash c && !cs.isEmpty
           | [] => false)

/-- `^[A-E][\)\.]\s+.+$` (case-sensitive, `MCQValidator.option_pattern`). -/
def mcqOptionMatch (s : String) : Bool :=
  match s.data with
  | c1 :: c2 :: c3 :: _ :: _ =>
    ('A' ≤ c1 && c1 ≤ 'E') && (c2 = ')' || c2 = '.') && pyWs c3
  | _ => false

/-- `^(?:Correct Answer|Answer):\s*[A-E]$`, IGNORECASE
(`MCQValidator.correct_answer_pattern`). -/
def mcqAnswerFinish : List Char → Bool
  | ':' :: r2 =>
    (match r2.dropWhile pyWs with
     | [c] => ('A' ≤ c && c ≤ 'E') || ('a' ≤ c && c ≤ 'e')
     | _ => false)
  | _ => false

def mcqAnswerLineMatch (s : String) : Bool :=
  match ciEat "correct answer".data s.data with
  | some r => mcqAnswerFinish r
  | none =>
    match ciEat "answer".data s.data with
    | some r => mcqAnswerFinish r
    | none => false

/-- `^(?:Explanation of the Correct Answer|Explanation):?\s*$`, IGNORECASE
(`MCQValidator.explanation_header_pattern`). -/
def mcqExplHeaderMatch (s : String) : Bool :=
  (match ciEat "explanation of the correct answer".data s.data with
   | some r => colonWsEnd r
   | none => false) ||
  (match ciEat "explanation".data s.data with
   | some r => colonWsEnd r
   | none => false)

/-- The `(?:\s*\([^)]*\))?:?\s*$` tail of the analysis-header pattern:
either take a parenthesised group then `:?\s*$`, or skip it. -/
def parenGroupThen (r : List Char) : Bool :=
  (match r.dropWhile pyWs with
   | '(' :: r2 =>
     let inner := r2.takeWhile (· ≠ ')')
     (match r2.drop inner.length with
      | ')' :: r3 => colonWsEnd r3
      | _ => false)
   | _ => false) ||
  colonWsEnd r

/-- `^(?:Analysis of (?:the )?Other Options(?:\s*\([^)]*\))?|Distractors):?\s*$`,
IGNORECASE (`MCQValidator.analysis_header_pattern`). -/
def mcqAnalysisHeaderMatch (s : String) : Bool :=
  (match ciEat "analysis of ".data s.data with
   | some r1 =>
     ((match ciEat "the ".data r1 with
       | some r2 =>
         (match ciEat "other options".data r2 with
          | some r3 => parenGroupThen r3
          | none => false)
       | none => false) ||
      (match ciEat "other options".data r1 with
       | some r3 => parenGroupThen r3
       | none => false))
   | none => false) ||
  (match ciEat "distractors".data s.data with
   | some r => colonWsEnd r
   | none => false)

/-- `^Key Insights:?\s*`, IGNORECASE, un-anchored at the end (`re.match` is a
prefix match and `:?\s*` can match the empty string), so this is exactly a
case-insensitive prefix test (`MCQValidator.key_insights_pattern`). -/
def mcqKeyInsightsMatch (s : String) : Bool :=
  (ciEat "key insights".data s.data).isSome

/-- `^Clinical Vignette\s+\d+:\s+.+$`, IGNORECASE
(`NMCQValidator.title_pattern`). -/
def nmcqTitleMatch (s : String) : Bool :=
  match ciEat "clinical vignette".data s.data with
  | none => false
  | some r1 =>
    match eatWs1 r1 with
    | none => false
    | some r2 =>
      match eatDigits1 r2 with
      | none => false
      | some r3 =>
        match r3 with
        | ':' :: c :: _ :: _ => pyWs c
        | _ => false

/-- `^Questions and Answers:\s*$`, IGNORECASE (`NMCQValidator.qa_header_pattern`). -/
def nmcqQAHeaderMatch (s : String) : Bool :=
  match ciEat "questions and answers:".data s.data with
  | some r => r.all pyWs
  | none => false

/-- The candidate lengths (in priority order) at which the type alternation
`True/False|Yes/No|Drop Down Question[s]?|Drop-?Down(?: Question[s]?)?` can
match at the head of `r`, reproducing the regex's backtracking order. -/
def dropDownCands (r : List Char) : List Nat :=
  let core : Option Nat :=
    match ciEat "drop".data r with
    | none => none
    | some r1 =>
      match r1 with
      | '-' :: r2 => if (ciEat "down".data r2).isSome then some 9 else none
      | _ => if (ciEat "down".data r1).isSome then some 8 else none
  match core with
  | none => []
  | some n =>
    let afterCore := r.drop n
    (if (ciEat " questions".data afterCore).isSome then [n + 10] else []) ++
    (if (ciEat " question".data afterCore).isSome then [n + 9] else []) ++ [n]

def nmcqTypeCandidates (r : List Char) : List Nat :=
  (if (ciEat "true/false".data r).isSome then [10] else []) ++
  (if (ciEat "yes/no".data r).isSome then [6] else []) ++
  (if (ciEat "drop down questions".data r).isSome then [19] else []) ++
  (if (ciEat "drop down question".data r).isSome then [18] else []) ++
  dropDownCands r

/-- Try each candidate type length in order against the `\s*:\s*(.+)$`
continuation; the first that completes wins (regex backtracking). -/
def nmcqTryCands (ds : List Char) (r2 : List Char) : List Nat → Option (String × String × String)
  | [] => none
  | n :: ns =>
    match (r2.drop n).dropWhile pyWs with
    | ':' :: r3 =>
      (match wsStarDotPlus r3 with
       | some g3 => some (⟨ds⟩, ⟨r2.take n⟩, ⟨g3⟩)
       | none => nmcqTryCands ds r2 ns)
    | _ => nmcqTryCands ds r2 ns

/-- `^(\d+)\.\s*(True/False|Yes/No|Drop Down Question[s]?|Drop-?Down(?: Question[s]?)?)\s*:\s*(.+)$`,
IGNORECASE (`NMCQValidator.question_pattern`); returns groups 1–3. -/
def nmcqQuestionParse (s : String) : Option (String × String × String) :=
  match grabDigits1 s.data with
  | none => none
  | some (ds, r0) =>
    match r0 with
    | '.' :: r1 =>
      let r2 := r1.dropWhile pyWs
      nmcqTryCands ds r2 (nmcqTypeCandidates r2)
    | _ => none

/-- `^Answer:\s*(.+)$`, IGNORECASE (`NMCQValidator.answer_pattern`), group 1. -/
def nmcqAnswerParse (s : String) : Option String :=
  match ciEat "answer:".data s.data with
  | some r => (wsStarDotPlus r).map (fun g => (⟨g⟩ : String))
  | none => none

/-- `^Explanation:\s*(.+)$`, IGNORECASE (`NMCQValidator.explanation_pattern`). -/
def nmcqExplanationParse (s : String) : Option String :=
  match ciEat "explanation:".data s.data with
  | some r => (wsStarDotPlus r).map (fun g => (⟨g⟩ : String))
  | none => none

/-- `^\s*\d+\.` (prefix match, the inline numbered-item pattern of
`SummaryValidator.validate`). -/
def numberedMatch (s : String) : Bool :=
  match grabDigits1 (s.data.dropWhile pyWs) with
  | some (_, '.' :: _) => true
  | _ => false

example : mcqTitleMatch (pyStrip "Question 1 - Test Question") = true := by decide
example : mcqTitleMatch "Question 12" = true := by decide
example : mcqTitleMatch "Question 1 --" = true := by decide
example : mcqTitleMatch "Question 1 x" = false := by decide
example : mcqOptionMatch "A) First option" = true := by decide
example : mcqOptionMatch "E. x" = true := by decide
example : mcqOptionMatch "F) x" = false := by decide
example : mcqOptionMatch "A)x" = false := by decide
example : mcqAnswerLineMatch "Correct Answer: B" = true := by decide
example : mcqAnswerLineMatch "Answer: e" = true := by decide
example : mcqAnswerLineMatch "Correct Answer: F" = false := by decide
example : mcqExplHeaderMatch "Explanation of the Correct Answer:" = true := by decide
example : mcqExplHeaderMatch "Explanation:" = true := by decide
example : mcqExplHeaderMatch "Explanation: text" = false := by decide
example : mcqAnalysisHeaderMatch "Analysis of Other Options:" = true := by decide
example : mcqAnalysisHeaderMatch "Analysis of the Other Options (Distractors):" = true := by decide
example : mcqAnalysisHeaderMatch "Distractors:" = true := by decide
example : mcqKeyInsightsMatch "Key Insights: This is the point." = true := by decide
example : nmcqTitleMatch "Clinical Vignette 1: Test Case" = true := by decide
example : nmcqTitleMatch "Clinical Vignette 1:" = false := by decide
example : nmcqQAHeaderMatch "Questions and Answers:" = true := by decide
example : nmcqQuestionParse "1. True/False: Is this a question?" =
    some ("1", "True/False", "Is this a question?") := by decide
example : nmcqQuestionParse "3. Drop Down Question: Select the best option" =
    some ("3", "Drop Down Question", "Select the best option") := by decide
example : nmcqQuestionParse "1. Drop-Down Question: Select one" =
    some ("1", "Drop-Down Question", "Select one") := by decide
example : nmcqQuestionParse "2. Maybe: nope" = none := by decide
example : nmcqAnswerParse "Answer: Option B" = some "Option B" := by decide
example : nmcqExplanationParse "Explanation: Why B is correct." = some "Why B is correct." := by decide
example : numberedMatch "  3. Something" = true := by decide
example : numberedMatch "Key Insights: x" = false := by decide

/-! ### `ValidationError` and the MCQ validator (`MCQValidator.validate`) -/

/-- The `ValidationError` dataclass of `validators.py`
(`line_number`, `message`, `section`; the Python field `section` is named
`sectionName` here because `section` is a Lean keyword). -/
structure ValidationError where
  line_number : Option Nat
  message : String
  sectionName : Option String := none
deriving Repr, DecidableEq

/-- Python list repr of the collected option letters, e.g. `['A', 'B']`
(used verbatim in the "Options not in sequence" message). -/
def pyReprCharList (l : List Char) : String :=
  "[" ++ String.intercalate ", " (l.map (fun c => "'" ++ String.singleton c ++ "'")) ++ "]"

/-- `while i < len(lines) and not lines[i].strip(): i += 1`
(the blank-line skip loop used throughout both validators);
carries the absolute index `i` alongside the remaining lines. -/
def skipBlanks : Nat → List String → Nat × List String
  | i, [] => (i, [])
  | i, l :: ls => if pyStrip l = "" then skipBlanks (i + 1) ls else (i, l :: ls)

/-- MCQ step 2: collect the vignette: scan forward until an option line,
remembering whether any non-empty line was seen. -/
def vignetteScan : Nat → List String → Bool → Bool × Nat × List String
  | i, [], found => (found, i, [])
  | i, l :: ls, found =>
    if mcqOptionMatch (pyStrip l) then (found, i, l :: ls)
    else vignetteScan (i + 1) ls (found || pyStrip l ≠ "")

/-- MCQ step 3: collect consecutive option lines' letters
(`lines[i].strip()[0]`). -/
def optionsScan : Nat → List String → List Char → List Char × Nat × List String
  | i, [], acc => (acc, i, [])
  | i, l :: ls, acc =>
    if mcqOptionMatch (pyStrip l) then
      optionsScan (i + 1) ls (acc ++ [pyFirstChar (pyStrip l)])
    else (acc, i, l :: ls)

/-- MCQ step 5 inner loop: skip explanation content until an analysis header
or a key-insights header on a non-blank line. -/
def explContentSkip : Nat → List String → Nat × List String
  | i, [] => (i, [])
  | i, l :: ls =>
    let t := pyStrip l
    if t ≠ "" && (mcqAnalysisHeaderMatch t || mcqKeyInsightsMatch t) then (i, l :: ls)
    else explContentSkip (i + 1) ls

/-- MCQ step 6 inner loop: skip analysis content until a key-insights header
or a question title on a non-blank line. -/
def analysisSkip : Nat → List String → Nat × List String
  | i, [] => (i, [])
  | i, l :: ls =>
    let t := pyStrip l
    if t ≠ "" && (mcqKeyInsightsMatch t || mcqTitleMatch t) then (i, l :: ls)
    else analysisSkip (i + 1) ls

/-- MCQ step 7 inner loop: skip key-insights content until a question title. -/
def insightsSkip : Nat → List String → Nat × List String
  | i, [] => (i, [])
  | i, l :: ls =>
    let t := pyStrip l
    if t ≠ "" && mcqTitleMatch t then (i, l :: ls)
    else insightsSkip (i + 1) ls

/-- MCQ step 4: the `Correct Answer` line.  Returns (errors, new index, rest). -/
def answerPhase (letters : List Char) (qc i : Nat) : List String → List ValidationError × Nat × List String
  | [] =>
    ([⟨none, "Question " ++ toString qc ++ ": Missing or invalid 'Correct Answer:' line",
       some "Answer"⟩], i, [])
  | l :: ls =>
    if mcqAnswerLineMatch (pyStrip l) then
      let letter := pyLastChar (pyStrip l)
      ((if letters ≠ [] && !letters.contains letter then
          [⟨some (i + 1), "Question " ++ toString qc ++ ": Correct answer '" ++
            String.singleton letter ++ "' not in options", some "Answer"⟩]
        else []), i + 1, ls)
    else
      ([⟨some (i + 1), "Question " ++ toString qc ++ ": Missing or invalid 'Correct Answer:' line",
         some "Answer"⟩], i, l :: ls)

/-- MCQ step 5: the explanation section (header, blank skip, content skip). -/
def explanationPhase (qc i : Nat) : List String → List ValidationError × Nat × List String
  | [] =>
    ([⟨none, "Question " ++ toString qc ++ ": Missing explanation section", some "Explanation"⟩],
     i, [])
  | l :: ls =>
    if mcqExplHeaderMatch (pyStrip l) then
      let b := skipBlanks (i + 1) ls
      match b.2 with
      | [] =>
        ([⟨none, "Question " ++ toString qc ++ ": Missing explanation section",
           some "Explanation"⟩], b.1, [])
      | l' :: ls' =>
        let sk := explContentSkip b.1 (l' :: ls')
        ([], sk.1, sk.2)
    else
      ([⟨some (i + 1), "Question " ++ toString qc ++ ": Missing explanation section",
         some "Explanation"⟩], i, l :: ls)

/-- MCQ step 6: the "Analysis of Other Options" section. -/
def analysisPhase (qc i : Nat) : List String → List ValidationError × Nat × List String
  | [] =>
    ([⟨none, "Question " ++ toString qc ++ ": Missing 'Analysis of Other Options' section",
       some "Analysis"⟩], i, [])
  | l :: ls =>
    if mcqAnalysisHeaderMatch (pyStrip l) then
      let sk := analysisSkip (i + 1) ls
      ([], sk.1, sk.2)
    else
      ([⟨some (i + 1), "Question " ++ toString qc ++ ": Missing 'Analysis of Other Options' section",
         some "Analysis"⟩], i, l :: ls)

/-- MCQ step 7: the "Key Insights" section. -/
def insightsPhase (qc i : Nat) : List String → List ValidationError × Nat × List String
  | [] =>
    ([⟨none, "Question " ++ toString qc ++ ": Missing 'Key Insights' section",
       some "Key Insights"⟩], i, [])
  | l :: ls =>
    if mcqKeyInsightsMatch (pyStrip l) then
      let sk := insightsSkip (i + 1) ls
      ([], sk.1, sk.2)
    else
      ([⟨some (i + 1), "Question " ++ toString qc ++ ": Missing 'Key Insights' section",
         some "Key Insights"⟩], i, l :: ls)

/-- Process one MCQ question after its title line (steps 2–7 of
`MCQValidator.validate`); `qstart` is the title's index, `i0`/`r0` the
position just past it, `qc` the 1-based question number.  Errors are emitted
in the source's append order. -/
def processQuestion (qstart qc i0 : Nat) (r0 : List String) : List ValidationError × Nat × List String :=
  let v := vignetteScan i0 r0 false
  let errsV :=
    if v.1 then []
    else [⟨some (qstart + 2), "Question " ++ toString qc ++ ": Missing vignette/stem",
           some "Vignette"⟩]
  let o := optionsScan v.2.1 v.2.2 []
  let errsCount :=
    if o.1.length < 4 || 5 < o.1.length then
      [⟨some (v.2.1 + 1), "Question " ++ toString qc ++ ": Found " ++ toString o.1.length ++
        " options, expected 4-5", some "Options"⟩]
    else []
  let expected := (['A', 'B', 'C', 'D', 'E']).take o.1.length
  let errsSeq :=
    if o.1 ≠ expected then
      [⟨some (v.2.1 + 1), "Question " ++ toString qc ++ ": Options not in sequence. Found " ++
        pyReprCharList o.1, some "Options"⟩]
    else []
  let b1 := skipBlanks o.2.1 o.2.2
  let a := answerPhase o.1 qc b1.1 b1.2
  let b2 := skipBlanks a.2.1 a.2.2
  let e := explanationPhase qc b2.1 b2.2
  let b3 := skipBlanks e.2.1 e.2.2
  let an := analysisPhase qc b3.1 b3.2
  let b4 := skipBlanks an.2.1 an.2.2
  let k := insightsPhase qc b4.1 b4.2
  (errsV ++ errsCount ++ errsSeq ++ a.1 ++ e.1 ++ an.1 ++ k.1, k.2)

/-- The outer question loop of `MCQValidator.validate`.  The Boolean is the
early `return False, errors` taken when the very first non-blank line is not
a title.  `fuel` bounds the recursion; every iteration consumes at least the
title line, so `lines.length + 1` fuel never runs out. -/
def mcqLoop : Nat → Nat → List String → Nat → Bool × List ValidationError
  | 0, _, _, _ => (false, [])
  | fuel + 1, i, rest, qc =>
    let s1 := skipBlanks i rest
    match s1.2 with
    | [] => (false, [])
    | l :: ls =>
      if !mcqTitleMatch (pyStrip l) then
        if qc = 0 then
          (true, [⟨some (s1.1 + 1), "Invalid format: Content must start with a question title",
                  some "Format"⟩])
        else (false, [])
      else
        let pq := processQuestion s1.1 (qc + 1) (s1.1 + 1) ls
        let nxt := mcqLoop fuel pq.2.1 pq.2.2 (qc + 1)
        (nxt.1, pq.1 ++ nxt.2)

/-- `MCQValidator.validate`. -/
def mcqValidate (content : String) : Bool × List ValidationError :=
  let lines := pySplitLines (pyStrip content)
  if lines = [] then (false, [⟨none, "Empty content", none⟩])
  else
    match mcqLoop (lines.length + 1) 0 lines 0 with
    | (true, errs) => (false, errs)
    | (false, errs) => (errs.isEmpty, errs)

/-! ### The NMCQ validator (`NMCQValidator.validate`) -/

/-- NMCQ step 2: scan the vignette body until a `Questions and Answers:`
header or a sub-question line, remembering whether a non-empty line was seen. -/
def nmcqBodyScan : Nat → List String → Bool → Bool × Nat × List String
  | i, [], found => (found, i, [])
  | i, l :: ls, found =>
    let t := pyStrip l
    if nmcqQAHeaderMatch t || (nmcqQuestionParse t).isSome then (found, i, l :: ls)
    else nmcqBodyScan (i + 1) ls (found || t ≠ "")

/-- The Drop Down options scan (lines 346–363 of `validators.py`): collect
option lines until an `Answer:`/question line; an `Options: a, b, c` line is
split on `,`/`|` and ends the scan; a blank line ends the scan. -/
def dropdownScan : Nat → List String → List String → List String × Nat × List String
  | i, [], acc => (acc, i, [])
  | i, l :: ls, acc =>
    let line := pyStrip l
    if (nmcqAnswerParse line).isSome || (nmcqQuestionParse line).isSome then (acc, i, l :: ls)
    else if line ≠ "" && !(pyStartsWith line "Options:") then
      dropdownScan (i + 1) ls (acc ++ [line])
    else if pyStartsWith line "Options:" then
      let opts := pyStripL (line.data.drop 8)
      (acc ++ ((splitAny [',', '|'] opts).map (fun o => pyStrip ⟨o⟩)), i + 1, ls)
    else (acc, i + 1, ls)

/-- The multi-line explanation skip (lines 414–417). -/
def nmcqExpSkip : Nat → List String → Nat × List String
  | i, [] => (i, [])
  | i, l :: ls =>
    let t := pyStrip l
    if t ≠ "" && (nmcqQuestionParse t).isNone && !nmcqTitleMatch t then nmcqExpSkip (i + 1) ls
    else (i, l :: ls)

/-- Everything after a matched sub-question line (numbering check, Drop Down
options, `Answer:` with type-constrained value, `Explanation:`); `vc`/`qc`
are the 1-based vignette and question counters, `qnumS` group 1, `qty` the
already-lowercased group 2, `iq` the question line's index, `rAfter` the
lines after it. -/
def nmcqQuestionBody (vc qc : Nat) (qnumS qty : String) (iq : Nat) (rAfter : List String) :
    List ValidationError × Nat × List String :=
  let errNum :=
    if pyStrToNat qnumS ≠ qc then
      [⟨some (iq + 1), "Vignette " ++ toString vc ++ ", Question numbering error: expected " ++
        toString qc ++ ", got " ++ qnumS, some "Question"⟩]
    else []
  let step1 : List ValidationError × Nat × List String :=
    if containsSub "drop".data (pyLower qty).data then
      let d := dropdownScan (iq + 1) rAfter []
      ((if d.1.length < 2 then
          [⟨some d.2.1, "Vignette " ++ toString vc ++ ", Question " ++ toString qc ++
            ": Drop Down requires at least 2 options", some "Options"⟩]
        else []), d.2.1, d.2.2)
    else ([], iq + 1, rAfter)
  let i1 := step1.2.1
  let step2 : List ValidationError × Nat × List String :=
    match step1.2.2 with
    | l :: ls =>
      (match nmcqAnswerParse (pyStrip l) with
       | some g =>
         let v := pyStrip g
         ((if containsSub "true/false".data (pyLower qty).data then
             (if v ≠ "True" && v ≠ "False" then
                [⟨some (i1 + 1), "Vignette " ++ toString vc ++ ", Question " ++ toString qc ++
                  ": True/False answer must be 'True' or 'False'", some "Answer"⟩]
              else [])
           else if containsSub "yes/no".data (pyLower qty).data then
             (if v ≠ "Yes" && v ≠ "No" then
                [⟨some (i1 + 1), "Vignette " ++ toString vc ++ ", Question " ++ toString qc ++
                  ": Yes/No answer must be 'Yes' or 'No'", some "Answer"⟩]
              else [])
           else []), i1 + 1, ls)
       | none =>
         ([⟨some i1, "Vignette " ++ toString vc ++ ", Question " ++ toString qc ++
            ": Missing Answer", some "Answer"⟩], i1, l :: ls))
    | [] =>
      ([⟨some i1, "Vignette " ++ toString vc ++ ", Question " ++ toString qc ++
         ": Missing Answer", some "Answer"⟩], i1, [])
  let i2 := step2.2.1
  let step3 : List ValidationError × Nat × List String :=
    match step2.2.2 with
    | l :: ls =>
      (match nmcqExplanationParse (pyStrip l) with
       | some g =>
         let sk := nmcqExpSkip (i2 + 1) ls
         ((if pyStrip g ≠ "" then []
           else [⟨some sk.1, "Vignette " ++ toString vc ++ ", Question " ++ toString qc ++
                  ": Missing or empty Explanation", some "Explanation"⟩]), sk.1, sk.2)
       | none =>
         ([⟨some i2, "Vignette " ++ toString vc ++ ", Question " ++ toString qc ++
            ": Missing or empty Explanation", some "Explanation"⟩], i2, l :: ls))
    | [] =>
      ([⟨some i2, "Vignette " ++ toString vc ++ ", Question " ++ toString qc ++
         ": Missing or empty Explanation", some "Explanation"⟩], i2, [])
  (errNum ++ step1.1 ++ step2.1 ++ step3.1, step3.2)

/-- The sub-question loop of `NMCQValidator.validate` (lines 314–430).
Returns (errors, index, rest, question count).  Every iteration consumes at
least one line, so `lines.length + 1` fuel never runs out; on the title
re-check after the blank skip the loop stops, and an unparseable non-title
line is skipped (the source's `else: i += 1` branch — its inner title test
is always false there because the title was already excluded). -/
def nmcqQLoop (vc : Nat) : Nat → Nat → List String → Nat →
    List ValidationError × Nat × List String × Nat
  | 0, i, rest, qc => ([], i, rest, qc)
  | fuel + 1, i, rest, qc =>
    match rest with
    | [] => ([], i, [], qc)
    | l :: ls =>
      if nmcqTitleMatch (pyStrip l) then ([], i, l :: ls, qc)
      else
        let b := skipBlanks i (l :: ls)
        match b.2 with
        | [] => ([], b.1, [], qc)
        | l' :: ls' =>
          if nmcqTitleMatch (pyStrip l') then ([], b.1, l' :: ls', qc)
          else
            match nmcqQuestionParse (pyStrip l') with
            | some (qn, qt, _) =>
              let body := nmcqQuestionBody vc (qc + 1) qn (pyLower qt) b.1 ls'
              let nxt := nmcqQLoop vc fuel body.2.1 body.2.2 (qc + 1)
              (body.1 ++ nxt.1, nxt.2)
            | none => nmcqQLoop vc fuel (b.1 + 1) ls' qc

/-- The outer vignette loop of `NMCQValidator.validate`.  Each iteration
consumes at least the title line, so `lines.length + 1` fuel never runs out. -/
def nmcqLoop : Nat → Nat → List String → Nat → List ValidationError
  | 0, _, _, _ => []
  | fuel + 1, i, rest, vc =>
    let b := skipBlanks i rest
    match b.2 with
    | [] => []
    | l :: ls =>
      let vstart := b.1
      let errsTitle :=
        if !nmcqTitleMatch (pyStrip l) then
          [⟨some (vstart + 1), "Vignette " ++ toString (vc + 1) ++
            ": Invalid title format. Expected 'Clinical Vignette N: Title'", some "Title"⟩]
        else []
      let bs := nmcqBodyScan (vstart + 1) ls false
      let errsBody :=
        if !bs.1 then
          [⟨some (vstart + 2), "Vignette " ++ toString (vc + 1) ++ ": Missing vignette body",
            some "Body"⟩]
        else []
      let afterQA :=
        match bs.2.2 with
        | l' :: ls' =>
          if nmcqQAHeaderMatch (pyStrip l') then (bs.2.1 + 1, ls') else (bs.2.1, l' :: ls')
        | [] => (bs.2.1, ([] : List String))
      let b2 := skipBlanks afterQA.1 afterQA.2
      let q := nmcqQLoop (vc + 1) (b2.2.length + 1) b2.1 b2.2 0
      let errsNoQ :=
        if q.2.2.2 = 0 then
          [⟨some (vstart + 3), "Vignette " ++ toString (vc + 1) ++ ": No questions found",
            some "Questions"⟩]
        else []
      errsTitle ++ errsBody ++ q.1 ++ errsNoQ ++ nmcqLoop fuel q.2.1 q.2.2.1 (vc + 1)

/-- `NMCQValidator.validate`. -/
def nmcqValidate (content : String) : Bool × List ValidationError :=
  let lines := pySplitLines (pyStrip content)
  if lines = [] then (false, [⟨none, "Empty content", none⟩])
  else
    let errs := nmcqLoop (lines.length + 1) 0 lines 0
    (errs.isEmpty, errs)

/-! ### The Summary validator (`SummaryValidator.validate`)

The `__init__` patterns (`high_yield_pattern` etc.) are never used by
`validate`, which works with case-insensitive substring searches and the
inline `^\s*\d+\.` pattern; only the latter is embedded. -/

/-- `block_end` search (lines 510–514): the first `j > i` whose raw line
matches `^\s*\d+\.`, else `len(lines)`.  `fuel ≥ lines.length - j` keeps the
recursion structural; it never runs out at the call sites below. -/
def summaryBlockEndAux (lines : List String) : Nat → Nat → Nat
  | 0, _ => lines.length
  | fuel + 1, j =>
    if j < lines.length then
      if numberedMatch (lines.getD j "") then j else summaryBlockEndAux lines fuel (j + 1)
    else lines.length

/-- The detailed per-block walk (lines 498–551): at each numbered line,
check the block's span for "high yield", "key insight", and a non-trivially
short key-insights payload. -/
def summaryBlockLoop (lines : List String) : Nat → Nat → Nat → List ValidationError
  | 0, _, _ => []
  | fuel + 1, i, cb =>
    if i < lines.length then
      let line := pyStrip (lines.getD i "")
      if numberedMatch line then
        let cb' := cb + 1
        let header_line := i
        let block_end := summaryBlockEndAux lines (lines.length + 1) (i + 1)
        let block_text := joinNl ((lines.drop i).take (block_end - i))
        let blockL := block_text.data
        let block_lower := blockL.map pyLowerChar
        let e1 :=
          if !containsSub "high yield".data block_lower then
            [⟨some header_line, "Summary Block " ++ toString cb' ++
              ": Missing High Yield Points section", some "High Yield Points"⟩]
          else []
        let e2 :=
          if !containsSub "key insight".data block_lower then
            [⟨some header_line, "Summary Block " ++ toString cb' ++
              ": Missing Key Insights section", some "Key Insights"⟩]
          else []
        let e3 :=
          match findSub "key insight".data block_lower with
          | some idx =>
            let remaining0 := pyStripL (blockL.drop (idx + 11))
            let remaining :=
              match remaining0 with
              | ':' :: r => pyStripL r
              | r => r
            if remaining.isEmpty || remaining.length < 20 then
              [⟨some header_line, "Summary Block " ++ toString cb' ++
                ": Key Insights appears empty or too short", some "Key Insights"⟩]
            else []
          | none => []
        e1 ++ e2 ++ e3 ++ summaryBlockLoop lines fuel (i + 1) cb'
      else summaryBlockLoop lines fuel (i + 1) cb
    else []

/-- `SummaryValidator.validate`. -/
def summaryValidate (content : String) : Bool × List ValidationError :=
  if content = "" || pyStrip content = "" then
    (false, [⟨some 0, "Empty content", some "Content"⟩])
  else
    let lines := pySplitLines (pyStrip content)
    let content_lower := pyLower content
    let has_numbered_items := lines.any (fun l => numberedMatch l)
    let has_high_yield := containsSub "high yield".data content_lower.data
    let has_key_insights := containsSub "key insight".data content_lower.data
    let scErrs : Nat × List ValidationError :=
      if has_high_yield && has_key_insights then
        let sc0 := (lines.filter (fun l => numberedMatch l)).length
        let summary_count := if sc0 = 0 && has_high_yield then 1 else sc0
        (summary_count, summaryBlockLoop lines (lines.length + 1) 0 0)
      else
        (0,
         (if !has_high_yield then
            [⟨some 0, "No 'High Yield Points' sections found in content", some "Structure"⟩]
          else []) ++
         (if !has_key_insights then
            [⟨some 0, "No 'Key Insights' sections found in content", some "Structure"⟩]
          else []) ++
         (if !has_numbered_items && !has_high_yield then
            [⟨some 0, "No Summary Blocks found in content (looking for numbered sections or High Yield Points)",
              some "Structure"⟩]
          else []))
    let errors :=
      if scErrs.1 = 0 && scErrs.2.isEmpty then
        (if has_high_yield && has_key_insights then scErrs.2
         else scErrs.2 ++ [⟨some 0, "No properly formatted Summary Blocks found in content",
                            some "Structure"⟩])
      else scErrs.2
    (errors.isEmpty, errors)

/-- `validate_content` (the dispatch at the bottom of `validators.py`). -/
def validate_content (content : String) (content_type : String) : Bool × List ValidationError :=
  if pyUpper content_type = "MCQ" then mcqValidate content
  else if pyUpper content_type = "NMCQ" then nmcqValidate content
  else if pyUpper content_type = "SUMMARY" then summaryValidate content
  else (false, [⟨none, "Invalid content type: " ++ content_type, none⟩])

/-! ### The pipeline state machine (`backend/pipeline.py`)

The LangGraph workflow and the `_run_direct` fallback are embedded over an
explicit `PipelineState` record.  External effects are abstracted into a
`ModelEnv`: presence of provider credentials, the prompt-file store, and the
outcome of each model call (the call receives the exact prompt the source
builds, and the formatter outcomes are additionally indexed by invocation
count, modelling per-call nondeterminism).  Wall-clock latencies and model-id
bookkeeping carry no logical content and are omitted.  Each run also yields a
log recording, per formatter invocation, the `content_to_format` value
(`state["draft_1"]`) it formatted. -/

/-- The fields of the `PipelineState` TypedDict used by the control flow. -/
structure PipelineState where
  content_type : String
  generator_model : String
  input_text : String
  num_questions : Nat
  focus_areas : Option String
  prompts_generator : String
  prompts_formatter : String
  draft_1 : Option String
  formatted_output : Option String
  validation_errors : List ValidationError
  formatter_retries : Nat
  success : Bool
  error_message : Option String
deriving Repr, DecidableEq

/-- The run's external collaborators: credential presence, the prompt store
(`PromptLoader.load_prompts`, `""` for a missing file), and the model-call
outcomes (text, or the message of the exception escaping the tenacity
retries). -/
structure ModelEnv where
  anthropic_key : Bool
  google_key : Bool
  promptStore : String → String
  genCall : String → Except String String
  fmtCall : Nat → String → Except String String

/-- Python `f"{x}"` on an optional string (`None` prints as `"None"`). -/
def pyOptRepr : Option String → String
  | none => "None"
  | some s => s

/-- Python truthiness of an optional string. -/
def pyTruthyOpt : Option String → Bool
  | none => false
  | some s => s ≠ ""

/-- `load_prompts_node`: select the prompt pair by content type
(MCQ / SUMMARY / everything else → NMCQ). -/
def load_prompts_node (env : ModelEnv) (st : PipelineState) : PipelineState :=
  if pyUpper st.content_type = "MCQ" then
    { st with prompts_generator := env.promptStore "mcq_generator",
              prompts_formatter := env.promptStore "mcq_formatter" }
  else if pyUpper st.content_type = "SUMMARY" then
    { st with prompts_generator := env.promptStore "summary_generator",
              prompts_formatter := env.promptStore "summary_formatter" }
  else
    { st with prompts_generator := env.promptStore "nmcq_generator",
              prompts_formatter := env.promptStore "nmcq_formatter" }

/-- The `max_input_chars` constant of `generator_node`. -/
def max_input_chars : Nat := 500000

/-- The generator prompt after placeholder substitution. -/
def buildGeneratorPrompt (st : PipelineState) : String :=
  ((st.prompts_generator.replace "\x7b\x7bTEXT_TO_ANALYZE\x7d\x7d" st.input_text).replace
      "\x7b\x7bNUM_QUESTIONS\x7d\x7d" (toString st.num_questions)).replace
    "\x7b\x7bFOCUS_AREAS\x7d\x7d"
    (match st.focus_areas with
     | some f => if f ≠ "" then f else "Not specified"
     | none => "Not specified")

/-- `generator_node`: size check, substring dispatch on the model name,
credential fail-fast, then the model call; on success `draft_1` is assigned,
on any raised error the `except` block records `Generation failed: …`. -/
def generator_node (env : ModelEnv) (st : PipelineState) : PipelineState :=
  if max_input_chars < st.input_text.length then
    { st with success := false,
              error_message := some ("Input text exceeds " ++ toString max_input_chars ++
                                     " character limit") }
  else
    if containsSub "claude".data (pyLower st.generator_model).data then
      if !env.anthropic_key then
        { st with success := false,
                  error_message := some "Generation failed: ANTHROPIC_API_KEY not set" }
      else
        match env.genCall (buildGeneratorPrompt st) with
        | .ok content => { st with draft_1 := some content }
        | .error e => { st with success := false,
                                error_message := some ("Generation failed: " ++ e) }
    else if containsSub "gemini".data (pyLower st.generator_model).data then
      if !env.google_key then
        { st with success := false,
                  error_message := some "Generation failed: GOOGLE_API_KEY not set" }
      else
        match env.genCall (buildGeneratorPrompt st) with
        | .ok content => { st with draft_1 := some content }
        | .error e => { st with success := false,
                                error_message := some ("Generation failed: " ++ e) }
    else
      { st with success := false,
                error_message := some ("Generation failed: Unknown model: " ++ st.generator_model) }

/-- `formatter_node`: always formats `state["draft_1"]`
(`content_to_format`), appending it to the invocation log. -/
def formatter_node (env : ModelEnv) (st : PipelineState) (log : List (Option String)) :
    PipelineState × List (Option String) :=
  if !env.google_key then
    ({ st with success := false,
               error_message := some "Formatting failed: GOOGLE_API_KEY not set" },
     log ++ [st.draft_1])
  else
    match env.fmtCall log.length
        (st.prompts_formatter ++ "\n\nContent to format:\n\n" ++ pyOptRepr st.draft_1) with
    | .ok content => ({ st with formatted_output := some content }, log ++ [st.draft_1])
    | .error e =>
      ({ st with success := false,
                 error_message := some ("Formatting failed: " ++ e) }, log ++ [st.draft_1])

/-- `validator_node`: deterministic validation of `formatted_output`
(Python truthiness: `None` and `""` both fail the guard). -/
def validator_node (st : PipelineState) : PipelineState :=
  if !pyTruthyOpt st.formatted_output then
    { st with success := false, error_message := some "No formatted output to validate" }
  else
    let r := validate_content (pyOptRepr st.formatted_output) st.content_type
    let st' := { st with validation_errors := r.2 }
    if r.1 then { st' with success := true } else st'

/-- `formatter_retry_node`: bump the retry counter, re-run the formatter
(which reads the original `draft_1`). -/
def formatter_retry_node (env : ModelEnv) (st : PipelineState) (log : List (Option String)) :
    PipelineState × List (Option String) :=
  formatter_node env { st with formatter_retries := st.formatter_retries + 1 } log

/-- `done_node` / `fail_node` only log; the state passes through. -/
def done_node (st : PipelineState) : PipelineState := st

def fail_node (st : PipelineState) : PipelineState := st

/-- `should_retry_or_finish`. -/
inductive RetryDecision
  | retry
  | done
  | fail
deriving Repr, DecidableEq

def should_retry_or_finish (maxR : Nat) (st : PipelineState) : RetryDecision :=
  if st.success then .done
  else if st.formatter_retries < maxR then .retry
  else .fail

/-- The `{"recursion_limit": 10}` passed to `app.invoke`. -/
def recursion_limit : Nat := 10

/-- Outcome of the compiled LangGraph workflow: a final state, or the
`GraphRecursionError` raised when the node budget is exhausted. -/
inductive GraphOutcome
  | completed (st : PipelineState)
  | recursionError
deriving Repr, DecidableEq

/-- The `validator → {retry → formatter_retry → validator}* → done/fail` tail
of the LangGraph workflow; `steps` counts nodes already executed against the
recursion limit. -/
def graphLoop (env : ModelEnv) (maxR : Nat) : Nat → PipelineState → List (Option String) →
    Nat → GraphOutcome × List (Option String)
  | 0, _, log, _ => (.recursionError, log)
  | fuel + 1, st, log, steps =>
    if recursion_limit ≤ steps then (.recursionError, log)
    else
      let stV := validator_node st
      match should_retry_or_finish maxR stV with
      | .done =>
        if recursion_limit ≤ steps + 1 then (.recursionError, log)
        else (.completed (done_node stV), log)
      | .fail =>
        if recursion_limit ≤ steps + 1 then (.recursionError, log)
        else (.completed (fail_node stV), log)
      | .retry =>
        if recursion_limit ≤ steps + 1 then (.recursionError, log)
        else
          let r := formatter_retry_node env stV log
          graphLoop env maxR fuel r.1 r.2 (steps + 2)

/-- The compiled workflow from its entry point:
`load_prompts → generator → formatter → validator → …`.  All three leading
edges are unconditional (`_build_workflow` lines 461–463): the formatter and
validator run even when the generator stage has already failed.  (The three
leading nodes cannot exhaust the recursion limit of 10.) -/
def graphInvoke (env : ModelEnv) (maxR : Nat) (st0 : PipelineState) :
    GraphOutcome × List (Option String) :=
  let st1 := load_prompts_node env st0
  let st2 := generator_node env st1
  let r3 := formatter_node env st2 []
  graphLoop env maxR recursion_limit r3.1 r3.2 3

/-- The shape of the dictionary returned by `ContentPipeline.run` /
`ContentPipeline._run_direct` (latencies, model ids and wall-clock total time
omitted; an absent `error`/`partial_output` key is `none`). -/
structure PipelineResponse where
  success : Bool
  output : Option String
  error : Option String
  validation_errors : List ValidationError
  meta_content_type : String
  meta_generator_model : String
  meta_num_questions : Nat
  meta_formatter_retries : Nat
  partial_output : Option String
deriving Repr, DecidableEq

/-- The initial `PipelineState` built by `ContentPipeline.run`
(`content_type.upper()`, original model casing; the optional `prompts`
argument is overwritten unconditionally by `load_prompts_node` and is
initialised empty here). -/
def initialState (content_type generator_model input_text : String) (num_questions : Nat)
    (focus_areas : Option String) : PipelineState :=
  { content_type := pyUpper content_type
    generator_model := generator_model
    input_text := input_text
    num_questions := num_questions
    focus_areas := focus_areas
    prompts_generator := ""
    prompts_formatter := ""
    draft_1 := none
    formatted_output := none
    validation_errors := []
    formatter_retries := 0
    success := false
    error_message := none }

/-- Response assembly shared by the success path of `run` and `_run_direct`
(lines 547–567 and 663–684): `output` is `formatted_output` regardless of
success; `partial_output` duplicates it when the run failed and the text is
truthy. -/
def mkResponse (fs : PipelineState) : PipelineResponse :=
  { success := fs.success
    output := fs.formatted_output
    error := fs.error_message
    validation_errors := fs.validation_errors
    meta_content_type := fs.content_type
    meta_generator_model := fs.generator_model
    meta_num_questions := fs.num_questions
    meta_formatter_retries := fs.formatter_retries
    partial_output :=
      if !fs.success && pyTruthyOpt fs.formatted_output then fs.formatted_output else none }

/-- `ContentPipeline.run` via the LangGraph workflow; when the graph raises
(recursion limit) the generic `except` branch of `run` answers with
`success=False`, `output=None`, `formatter_retries=0` (the error text does
not contain `"__start__"`, so no fallback happens for this exception). -/
def pipelineRun (env : ModelEnv) (maxR : Nat) (content_type generator_model input_text : String)
    (num_questions : Nat) (focus_areas : Option String) :
    PipelineResponse × List (Option String) :=
  let st0 := initialState content_type generator_model input_text num_questions focus_areas
  match graphInvoke env maxR st0 with
  | (.completed fs, log) => (mkResponse fs, log)
  | (.recursionError, log) =>
    ({ success := false
       output := none
       error := some "Pipeline execution failed: recursion limit reached"
       validation_errors := []
       meta_content_type := pyUpper content_type
       meta_generator_model := pyLower generator_model
       meta_num_questions := num_questions
       meta_formatter_retries := 0
       partial_output := none }, log)

/-- The generic `except` response of `_run_direct` (the body re-raises the
stage's `error_message`, caught at the bottom). -/
def directFailResponse (content_type generator_model : String) (num_questions : Nat)
    (e : String) : PipelineResponse :=
  { success := false
    output := none
    error := some ("Pipeline execution failed: " ++ e)
    validation_errors := []
    meta_content_type := pyUpper content_type
    meta_generator_model := pyLower generator_model
    meta_num_questions := num_questions
    meta_formatter_retries := 0
    partial_output := none }

/-- `ContentPipeline._run_direct`: the sequential fallback.  After
`generator_node` and `formatter_node` a set `error_message` raises (ending
the run before the next stage); validation failure triggers at most one
`formatter_retry_node` + re-validation. -/
def runDirect (env : ModelEnv) (maxR : Nat) (content_type generator_model input_text : String)
    (num_questions : Nat) (focus_areas : Option String) :
    PipelineResponse × List (Option String) :=
  let st0 := initialState content_type (pyLower generator_model) input_text num_questions
    focus_areas
  let st1 := load_prompts_node env st0
  match st1.error_message with
  | some e => (directFailResponse content_type generator_model num_questions e, [])
  | none =>
    let st2 := generator_node env st1
    match st2.error_message with
    | some e => (directFailResponse content_type generator_model num_questions e, [])
    | none =>
      let r3 := formatter_node env st2 []
      match r3.1.error_message with
      | some e => (directFailResponse content_type generator_model num_questions e, r3.2)
      | none =>
        let st4 := validator_node r3.1
        let fin : PipelineState × List (Option String) :=
          if !st4.success && st4.formatter_retries < maxR then
            let r5 := formatter_retry_node env st4 r3.2
            (validator_node r5.1, r5.2)
          else (st4, r3.2)
        (mkResponse fin.1, fin.2)

/-- A concrete environment with both credentials present, a fixed generator
draft, and a formatter whose output never validates as MCQ. -/
def envFailingFormat : ModelEnv :=
  { anthropic_key := true, google_key := true, promptStore := fun _ => "",
    genCall := fun _ => .ok "D", fmtCall := fun _ _ => .ok "bad" }

/-- A concrete environment with the Anthropic credential missing (the Google
one present), so a claude-model generator stage fails fast. -/
def envMissingAnthropic : ModelEnv :=
  { anthropic_key := false, google_key := true, promptStore := fun _ => "",
    genCall := fun _ => .ok "unused", fmtCall := fun _ _ => .ok "X" }

/-- The SUMMARY document of scenario D's boundary: a single block whose
`Key Insights:` payload is exactly 20 characters. -/
def summaryTwentyCharDoc : String :=
  "1. Renal\nHigh Yield Points: core facts\nKey Insights: AAAAAAAAAAAAAAAAAAAA"

end Microlearning

namespace Microlearning

/-! ## Claim theorems -/

/-- **C2** (code bug): for MCQ and NMCQ, empty or whitespace-only text is
*accepted* — `''.strip().split('\n') == ['']` is truthy, so the
`Empty content` guard is dead code and `validate` returns `(True, [])`, not
the claimed `(False, [EmptyContent])`; for SUMMARY the run returns one
`Empty content` error, but with line number `0`, not the claimed null.
The repository's own test `test_empty_content` asserts
`validate_content("", "MCQ")` is invalid, so the claim states the intent and
the code is the slip. -/
theorem empty_content_validation_divergence :
    validate_content "" "MCQ" = (true, []) ∧
    validate_content " \n " "MCQ" = (true, []) ∧
    validate_content "" "NMCQ" = (true, []) ∧
    validate_content " \n " "NMCQ" = (true, []) ∧
    validate_content "" "SUMMARY" = (false, [⟨some 0, "Empty content", some "Content"⟩]) ∧
    validate_content " \n " "SUMMARY" = (false, [⟨some 0, "Empty content", some "Content"⟩]) := by
  refine ⟨rfl, rfl, rfl, rfl, rfl, rfl⟩

/-- **C3** (code bug): in the LangGraph path the `generator → formatter` edge
is unconditional, so after a generator failure (missing Anthropic credential)
the formatter still runs — twice, on `draft_1 = None` — the validator runs,
and the final response has `formatter_retries = 1` and a non-null `output`,
against the claim (and spec scenario E).  The `_run_direct` fallback
implements the claimed behaviour: it stops at the generator's
`error_message`, never invokes the formatter (empty invocation log), and
answers `success=false`, `output=null`, `formatter_retries=0`. -/
theorem generator_failure_graph_divergence :
    (pipelineRun envMissingAnthropic 1 "MCQ" "claude-sonnet" "text" 1 none).2 = [none, none] ∧
    (pipelineRun envMissingAnthropic 1 "MCQ" "claude-sonnet" "text" 1 none).1.meta_formatter_retries = 1 ∧
    (pipelineRun envMissingAnthropic 1 "MCQ" "claude-sonnet" "text" 1 none).1.success = false ∧
    (pipelineRun envMissingAnthropic 1 "MCQ" "claude-sonnet" "text" 1 none).1.output = some "X" ∧
    (pipelineRun envMissingAnthropic 1 "MCQ" "claude-sonnet" "text" 1 none).1.error =
      some "Generation failed: ANTHROPIC_API_KEY not set" ∧
    (runDirect envMissingAnthropic 1 "MCQ" "claude-sonnet" "text" 1 none).2 = [] ∧
    (runDirect envMissingAnthropic 1 "MCQ" "claude-sonnet" "text" 1 none).1.meta_formatter_retries = 0 ∧
    (runDirect envMissingAnthropic 1 "MCQ" "claude-sonnet" "text" 1 none).1.output = none ∧
    (runDirect envMissingAnthropic 1 "MCQ" "claude-sonnet" "text" 1 none).1.success = false := by
  refine ⟨rfl, rfl, rfl, rfl, rfl, rfl, rfl, rfl, rfl⟩

/-- **C4** (counterexample): a run whose formatter output fails validation
twice ends with `success = false` after validation passes, yet `output` is
the last formatter attempt (`some "bad"`), not null — `partial_output`
duplicates it. -/
theorem failed_run_output_not_null_counterexample :
    (pipelineRun envFailingFormat 1 "MCQ" "gemini-pro" "t" 1 none).1.success = false ∧
    (pipelineRun envFailingFormat 1 "MCQ" "gemini-pro" "t" 1 none).1.validation_errors ≠ [] ∧
    (pipelineRun envFailingFormat 1 "MCQ" "gemini-pro" "t" 1 none).1.output = some "bad" ∧
    (pipelineRun envFailingFormat 1 "MCQ" "gemini-pro" "t" 1 none).1.output ≠ none ∧
    (pipelineRun envFailingFormat 1 "MCQ" "gemini-pro" "t" 1 none).1.partial_output = some "bad" := by
  refine ⟨rfl, by decide, rfl, by decide, rfl⟩

/-- **C9** (counterexample): a numbered SUMMARY block with a `Key Insights:`
payload of exactly 20 characters — "not longer than 20 characters" — is
accepted with no error at all: the code measures the stripped text from 11
characters past the start of the `key insight` match (here `"s: " ++` the
payload, 23 characters) against a strict `< 20` bound. -/
theorem summary_key_insights_twenty_char_no_error :
    summaryValidate summaryTwentyCharDoc = (true, []) := by
  rfl

/-- **C10** (counterexample): for an unrecognized content type the error
message embeds the *given* string, so `validate_content(text, ct)` and
`validate_content(text, ct.upper())` differ whenever `ct` is not already
upper-case. -/
theorem validate_content_dispatch_counterexample :
    pyUpper "foo" = "FOO" ∧
    validate_content "Some content" "foo" =
      (false, [⟨none, "Invalid content type: foo", none⟩]) ∧
    validate_content "Some content" "FOO" =
      (false, [⟨none, "Invalid content type: FOO", none⟩]) ∧
    validate_content "Some content" "foo" ≠ validate_content "Some content" (pyUpper "foo") := by
  refine ⟨rfl, rfl, rfl, by decide⟩

/-- **C10** (amended): content-type dispatch *is* case-insensitive for the
three recognized types — `validate_content(text, ct)` equals
`validate_content(text, ct.upper())` whenever `ct.upper()` is one of them —
and any other string yields `(False, one invalid-content-type error)` whose
message carries the original string as given. -/
theorem validate_content_dispatch_amended (content ct : String) :
    (pyUpper ct = "MCQ" ∨ pyUpper ct = "NMCQ" ∨ pyUpper ct = "SUMMARY" →
      validate_content content ct = validate_content content (pyUpper ct)) ∧
    (pyUpper ct ≠ "MCQ" → pyUpper ct ≠ "NMCQ" → pyUpper ct ≠ "SUMMARY" →
      validate_content content ct =
        (false, [⟨none, "Invalid content type: " ++ ct, none⟩])) := by
  constructor
  · rintro (h | h | h) <;> rw [validate_content, validate_content, h] <;> rfl
  · intro h1 h2 h3
    rw [validate_content, if_neg h1, if_neg h2, if_neg h3]

/-- Witness for the amended C10 at a concrete mixed-case input. -/
theorem validate_content_dispatch_amended_witness :
    validate_content "x" "mcq" = validate_content "x" (pyUpper "mcq") :=
  (validate_content_dispatch_amended "x" "mcq").1 (Or.inl (by decide))

/-- **C4** (amended): whenever a run — through the LangGraph path or the
direct fallback — ends unsuccessfully with a `partial_output` present, the
response's `output` is *not* null: it equals that same last formatter
attempt (`run` and `_run_direct` put `formatted_output` into `output`
unconditionally). -/
theorem failed_run_output_mirrors_partial_output (env : ModelEnv) (maxR : Nat) (ct gm it : String)
    (nq : Nat) (fa : Option String) :
    ((pipelineRun env maxR ct gm it nq fa).1.success = false →
      (pipelineRun env maxR ct gm it nq fa).1.partial_output ≠ none →
      (pipelineRun env maxR ct gm it nq fa).1.output =
        (pipelineRun env maxR ct gm it nq fa).1.partial_output ∧
      (pipelineRun env maxR ct gm it nq fa).1.output ≠ none) ∧
    ((runDirect env maxR ct gm it nq fa).1.success = false →
      (runDirect env maxR ct gm it nq fa).1.partial_output ≠ none →
      (runDirect env maxR ct gm it nq fa).1.output =
        (runDirect env maxR ct gm it nq fa).1.partial_output ∧
      (runDirect env maxR ct gm it nq fa).1.output ≠ none) := by
  have hmk : ∀ fs : PipelineState, (mkResponse fs).partial_output ≠ none →
      (mkResponse fs).output = (mkResponse fs).partial_output ∧
      (mkResponse fs).output ≠ none := by
    intro fs hp
    by_cases hc : (!fs.success && pyTruthyOpt fs.formatted_output) = true
    · have h1 : fs.success = false := by
        have := ((Bool.and_eq_true _ _).mp hc).1
        simpa using this
      have h2 : pyTruthyOpt fs.formatted_output = true := ((Bool.and_eq_true _ _).mp hc).2
      cases hfo : fs.formatted_output with
      | none => rw [hfo] at h2; simp [pyTruthyOpt] at h2
      | some s =>
        simp [mkResponse, hc, hfo]
        exact ⟨h1, hfo ▸ h2⟩
    · simp [mkResponse, hc] at hp
  constructor
  · intro _ hp
    rcases hg : graphInvoke env maxR (initialState ct gm it nq fa) with ⟨o, log⟩
    cases o with
    | completed fs =>
      have he : pipelineRun env maxR ct gm it nq fa = (mkResponse fs, log) := by
        simp only [pipelineRun, hg]
      rw [he] at hp ⊢
      exact hmk fs hp
    | recursionError =>
      have he : (pipelineRun env maxR ct gm it nq fa).1.partial_output = none := by
        simp only [pipelineRun, hg]
      exact absurd he hp
  · intro _ hp
    rcases h1 : (load_prompts_node env
        (initialState ct (pyLower gm) it nq fa)).error_message with _ | e
    · rcases h2 : (generator_node env (load_prompts_node env
          (initialState ct (pyLower gm) it nq fa))).error_message with _ | e2
      · rcases h3 : (formatter_node env (generator_node env (load_prompts_node env
            (initialState ct (pyLower gm) it nq fa))) []).1.error_message with _ | e3
        · have he : runDirect env maxR ct gm it nq fa =
              (let r3 := formatter_node env (generator_node env (load_prompts_node env
                (initialState ct (pyLower gm) it nq fa))) []
               let st4 := validator_node r3.1
               let fin : PipelineState × List (Option String) :=
                 if !st4.success && st4.formatter_retries < maxR then
                   let r5 := formatter_retry_node env st4 r3.2
                   (validator_node r5.1, r5.2)
                 else (st4, r3.2)
               (mkResponse fin.1, fin.2)) := by
            simp only [runDirect, h1, h2, h3]
          rw [he] at hp ⊢
          exact hmk _ hp
        · have he : (runDirect env maxR ct gm it nq fa).1.partial_output = none := by
            simp only [runDirect, h1, h2, h3, directFailResponse]
          exact absurd he hp
      · have he : (runDirect env maxR ct gm it nq fa).1.partial_output = none := by
          simp only [runDirect, h1, h2, directFailResponse]
        exact absurd he hp
    · have he : (runDirect env maxR ct gm it nq fa).1.partial_output = none := by
        simp only [runDirect, h1, directFailResponse]
      exact absurd he hp

/-- Witness for the amended C4: the concrete failing run of the
counterexample, with both hypotheses discharged by evaluation. -/
theorem failed_run_output_mirrors_partial_output_witness :
    (pipelineRun envFailingFormat 1 "MCQ" "gemini-pro" "t" 1 none).1.output =
      (pipelineRun envFailingFormat 1 "MCQ" "gemini-pro" "t" 1 none).1.partial_output ∧
    (pipelineRun envFailingFormat 1 "MCQ" "gemini-pro" "t" 1 none).1.output ≠ none :=
  (failed_run_output_mirrors_partial_output envFailingFormat 1 "MCQ" "gemini-pro" "t" 1 none).1
    (by rfl) (by decide)

/-! ### Node-invariance lemmas for the pipeline state machine -/

theorem formatter_node_fst_draft (env : ModelEnv) (st : PipelineState)
    (log : List (Option String)) : (formatter_node env st log).1.draft_1 = st.draft_1 := by
  unfold formatter_node
  split
  · rfl
  · split <;> rfl

theorem formatter_node_fst_retries (env : ModelEnv) (st : PipelineState)
    (log : List (Option String)) :
    (formatter_node env st log).1.formatter_retries = st.formatter_retries := by
  unfold formatter_node
  split
  · rfl
  · split <;> rfl

theorem formatter_node_snd (env : ModelEnv) (st : PipelineState)
    (log : List (Option String)) : (formatter_node env st log).2 = log ++ [st.draft_1] := by
  unfold formatter_node
  split
  · rfl
  · split <;> rfl

theorem validator_node_draft (st : PipelineState) :
    (validator_node st).draft_1 = st.draft_1 := by
  unfold validator_node
  split
  · rfl
  · dsimp only
    split <;> rfl

theorem validator_node_retries (st : PipelineState) :
    (validator_node st).formatter_retries = st.formatter_retries := by
  unfold validator_node
  split
  · rfl
  · dsimp only
    split <;> rfl

theorem load_prompts_node_draft (env : ModelEnv) (st : PipelineState) :
    (load_prompts_node env st).draft_1 = st.draft_1 := by
  unfold load_prompts_node
  split
  · rfl
  · split <;> rfl

theorem load_prompts_node_retries (env : ModelEnv) (st : PipelineState) :
    (load_prompts_node env st).formatter_retries = st.formatter_retries := by
  unfold load_prompts_node
  split
  · rfl
  · split <;> rfl

theorem load_prompts_node_error (env : ModelEnv) (st : PipelineState) :
    (load_prompts_node env st).error_message = st.error_message := by
  unfold load_prompts_node
  split
  · rfl
  · split <;> rfl

theorem generator_node_retries (env : ModelEnv) (st : PipelineState) :
    (generator_node env st).formatter_retries = st.formatter_retries := by
  unfold generator_node
  split
  · rfl
  · split
    · split
      · rfl
      · split <;> rfl
    · split
      · split
        · rfl
        · split <;> rfl
      · rfl

/-- The generator stage either assigns `draft_1` and leaves `error_message`
untouched (the single successful model call), or records an error message
and leaves `draft_1` untouched. -/
theorem generator_node_draft_or_error (env : ModelEnv) (st : PipelineState) :
    ((generator_node env st).error_message = st.error_message ∧
     (generator_node env st).draft_1.isSome = true) ∨
    ((generator_node env st).draft_1 = st.draft_1 ∧
     ∃ e, (generator_node env st).error_message = some e) := by
  unfold generator_node
  split
  · exact Or.inr ⟨rfl, _, rfl⟩
  · split
    · split
      · exact Or.inr ⟨rfl, _, rfl⟩
      · split
        · exact Or.inl ⟨rfl, rfl⟩
        · exact Or.inr ⟨rfl, _, rfl⟩
    · split
      · split
        · exact Or.inr ⟨rfl, _, rfl⟩
        · split
          · exact Or.inl ⟨rfl, rfl⟩
          · exact Or.inr ⟨rfl, _, rfl⟩
      · exact Or.inr ⟨rfl, _, rfl⟩

theorem should_retry_lt (maxR : Nat) (st : PipelineState)
    (h : should_retry_or_finish maxR st = .retry) : st.formatter_retries < maxR := by
  unfold should_retry_or_finish at h
  split at h
  · cases h
  · split at h
    · assumption
    · cases h

/-! ### Invariants of the validator/retry loop -/

/-- The formatter-invocation log grows by at most `maxR - retries` entries
across the loop. -/
theorem graphLoop_len (env : ModelEnv) (maxR : Nat) : ∀ (fuel : Nat) (st : PipelineState)
    (log : List (Option String)) (steps : Nat),
    (graphLoop env maxR fuel st log steps).2.length ≤
      log.length + (maxR - st.formatter_retries) := by
  intro fuel
  induction fuel with
  | zero =>
    intro st log steps
    simp [graphLoop]
  | succ n ih =>
    intro st log steps
    rw [graphLoop]
    split
    · exact Nat.le_add_right _ _
    · dsimp only
      split
      · split
        · exact Nat.le_add_right _ _
        · exact Nat.le_add_right _ _
      · split
        · exact Nat.le_add_right _ _
        · exact Nat.le_add_right _ _
      · split
        · exact Nat.le_add_right _ _
        · rename_i hretry _
          have hlt : (validator_node st).formatter_retries < maxR := should_retry_lt _ _ hretry
          have h1 := ih (formatter_retry_node env (validator_node st) log).1
            (formatter_retry_node env (validator_node st) log).2 (steps + 2)
          have h2 : (formatter_retry_node env (validator_node st) log).2.length =
              log.length + 1 := by
            unfold formatter_retry_node
            rw [formatter_node_snd]
            simp
          have h3 : (formatter_retry_node env (validator_node st) log).1.formatter_retries =
              (validator_node st).formatter_retries + 1 := by
            unfold formatter_retry_node
            rw [formatter_node_fst_retries]
          have h4 : (validator_node st).formatter_retries = st.formatter_retries :=
            validator_node_retries st
          rw [h2, h3, h4] at h1
          rw [h4] at hlt
          omega

/-- Every entry the loop appends to the log is the (unchanged) `draft_1`. -/
theorem graphLoop_log_all (env : ModelEnv) (maxR : Nat) : ∀ (fuel : Nat) (st : PipelineState)
    (log : List (Option String)) (steps : Nat) (v : Option String),
    (∀ d ∈ log, d = v) → st.draft_1 = v →
    ∀ d ∈ (graphLoop env maxR fuel st log steps).2, d = v := by
  intro fuel
  induction fuel with
  | zero =>
    intro st log steps v hlog _
    simpa [graphLoop] using hlog
  | succ n ih =>
    intro st log steps v hlog hd
    rw [graphLoop]
    split
    · exact hlog
    · dsimp only
      split
      · split
        · exact hlog
        · exact hlog
      · split
        · exact hlog
        · exact hlog
      · split
        · exact hlog
        · have hvd : (validator_node st).draft_1 = v := by rw [validator_node_draft]; exact hd
          have hlog' : ∀ d ∈ (formatter_retry_node env (validator_node st) log).2, d = v := by
            unfold formatter_retry_node
            rw [formatter_node_snd]
            intro d hdm
            rcases List.mem_append.mp hdm with hm | hm
            · exact hlog d hm
            · rcases List.mem_singleton.mp hm with rfl
              exact hvd
          have hd' : (formatter_retry_node env (validator_node st) log).1.draft_1 = v := by
            unfold formatter_retry_node
            rw [formatter_node_fst_draft]
            exact hvd
          exact ih _ _ _ v hlog' hd'

/-- A completed loop never changed `draft_1`. -/
theorem graphLoop_completed_draft (env : ModelEnv) (maxR : Nat) : ∀ (fuel : Nat)
    (st : PipelineState) (log : List (Option String)) (steps : Nat) (fs : PipelineState)
    (l : List (Option String)),
    graphLoop env maxR fuel st log steps = (.completed fs, l) → fs.draft_1 = st.draft_1 := by
  intro fuel
  induction fuel with
  | zero =>
    intro st log steps fs l h
    simp [graphLoop] at h
  | succ n ih =>
    intro st log steps fs l h
    rw [graphLoop] at h
    split at h
    · cases h
    · dsimp only at h
      split at h
      · split at h
        · cases h
        · cases h
          exact validator_node_draft st
      · split at h
        · cases h
        · cases h
          exact validator_node_draft st
      · split at h
        · cases h
        · have := ih _ _ _ _ _ h
          rw [this]
          unfold formatter_retry_node
          rw [formatter_node_fst_draft]
          exact validator_node_draft st

/-- **C1** (confirmed): per run — on both the LangGraph path and the direct
fallback — the formatter stage runs at most `1 + max_retries` times; every
invocation formats the identical `draft_1`, namely the value left by the
generator stage; a completed graph run still carries that same `draft_1`;
`draft_1` is unassigned before the generator stage, and when the generator
stage succeeds (no `error_message`) it has assigned `draft_1` (exactly once,
since no later node writes it). -/
theorem pipeline_formatter_retry_bound (env : ModelEnv) (maxR : Nat) (ct gm it : String)
    (nq : Nat) (fa : Option String) :
    (pipelineRun env maxR ct gm it nq fa).2.length ≤ 1 + maxR ∧
    (runDirect env maxR ct gm it nq fa).2.length ≤ 1 + maxR ∧
    (∀ d ∈ (pipelineRun env maxR ct gm it nq fa).2,
      d = (generator_node env (load_prompts_node env (initialState ct gm it nq fa))).draft_1) ∧
    (∀ d ∈ (runDirect env maxR ct gm it nq fa).2,
      d = (generator_node env
            (load_prompts_node env (initialState ct (pyLower gm) it nq fa))).draft_1) ∧
    (∀ fs l, graphInvoke env maxR (initialState ct gm it nq fa) = (.completed fs, l) →
      fs.draft_1 =
        (generator_node env (load_prompts_node env (initialState ct gm it nq fa))).draft_1) ∧
    (load_prompts_node env (initialState ct gm it nq fa)).draft_1 = none ∧
    ((generator_node env (load_prompts_node env (initialState ct gm it nq fa))).error_message =
        none →
      (generator_node env
        (load_prompts_node env (initialState ct gm it nq fa))).draft_1.isSome = true) := by
  have hrun2 : (pipelineRun env maxR ct gm it nq fa).2 =
      (graphInvoke env maxR (initialState ct gm it nq fa)).2 := by
    rcases hg : graphInvoke env maxR (initialState ct gm it nq fa) with ⟨o, log⟩
    cases o <;> simp only [pipelineRun, hg]
  have hg2 : (graphInvoke env maxR (initialState ct gm it nq fa)).2 =
      (graphLoop env maxR recursion_limit
        (formatter_node env
          (generator_node env (load_prompts_node env (initialState ct gm it nq fa))) []).1
        (formatter_node env
          (generator_node env (load_prompts_node env (initialState ct gm it nq fa))) []).2
        3).2 := rfl
  have hfmt2 : (formatter_node env
      (generator_node env (load_prompts_node env (initialState ct gm it nq fa))) []).2 =
      [(generator_node env (load_prompts_node env (initialState ct gm it nq fa))).draft_1] := by
    rw [formatter_node_snd]
    rfl
  have hfmtR : (formatter_node env
      (generator_node env (load_prompts_node env (initialState ct gm it nq fa))) []).1.formatter_retries = 0 := by
    rw [formatter_node_fst_retries, generator_node_retries, load_prompts_node_retries]
    rfl
  have hfmtD : (formatter_node env
      (generator_node env (load_prompts_node env (initialState ct gm it nq fa))) []).1.draft_1 =
      (generator_node env (load_prompts_node env (initialState ct gm it nq fa))).draft_1 :=
    formatter_node_fst_draft _ _ _
  refine ⟨?_, ?_, ?_, ?_, ?_, ?_, ?_⟩
  · rw [hrun2, hg2, hfmt2]
    have := graphLoop_len env maxR recursion_limit
      (formatter_node env
        (generator_node env (load_prompts_node env (initialState ct gm it nq fa))) []).1
      [(generator_node env (load_prompts_node env (initialState ct gm it nq fa))).draft_1]
      3
    rw [hfmtR] at this
    simpa using this
  · rcases h1 : (load_prompts_node env
        (initialState ct (pyLower gm) it nq fa)).error_message with _ | e
    · rcases h2 : (generator_node env (load_prompts_node env
          (initialState ct (pyLower gm) it nq fa))).error_message with _ | e2
      · rcases h3 : (formatter_node env (generator_node env (load_prompts_node env
            (initialState ct (pyLower gm) it nq fa))) []).1.error_message with _ | e3
        · simp only [runDirect, h1, h2, h3]
          split
          · rename_i hcond
            dsimp only
            have hr5 : (formatter_retry_node env
                (validator_node (formatter_node env (generator_node env (load_prompts_node env
                  (initialState ct (pyLower gm) it nq fa))) []).1)
                (formatter_node env (generator_node env (load_prompts_node env
                  (initialState ct (pyLower gm) it nq fa))) []).2).2.length = 2 := by
              unfold formatter_retry_node
              rw [formatter_node_snd, formatter_node_snd]
              simp
            have hc := (Bool.and_eq_true _ _).mp hcond
            have hlt := of_decide_eq_true hc.2
            rw [validator_node_retries, formatter_node_fst_retries, generator_node_retries,
              load_prompts_node_retries] at hlt
            have h0 : 0 < maxR := Nat.lt_of_le_of_lt (Nat.zero_le _) hlt
            rw [hr5]
            omega
          · dsimp only
            rw [formatter_node_snd]
            simp only [List.nil_append, List.length_singleton]
            omega
        · simp only [runDirect, h1, h2, h3]
          rw [formatter_node_snd]
          simp only [List.nil_append, List.length_singleton]
          omega
      · simp only [runDirect, h1, h2]
        simp
    · simp only [runDirect, h1]
      simp
  · intro d hd
    rw [hrun2, hg2] at hd
    exact graphLoop_log_all env maxR recursion_limit _ _ 3
      (generator_node env (load_prompts_node env (initialState ct gm it nq fa))).draft_1
      (by rw [hfmt2]; intro x hx; exact List.mem_singleton.mp hx) hfmtD d hd
  · intro d hd
    have hfmtD' : (formatter_node env (generator_node env (load_prompts_node env
        (initialState ct (pyLower gm) it nq fa))) []).1.draft_1 =
        (generator_node env
          (load_prompts_node env (initialState ct (pyLower gm) it nq fa))).draft_1 :=
      formatter_node_fst_draft _ _ _
    have hfmt2' : (formatter_node env (generator_node env (load_prompts_node env
        (initialState ct (pyLower gm) it nq fa))) []).2 =
        [(generator_node env
          (load_prompts_node env (initialState ct (pyLower gm) it nq fa))).draft_1] := by
      rw [formatter_node_snd]
      rfl
    rcases h1 : (load_prompts_node env
        (initialState ct (pyLower gm) it nq fa)).error_message with _ | e
    · rcases h2 : (generator_node env (load_prompts_node env
          (initialState ct (pyLower gm) it nq fa))).error_message with _ | e2
      · rcases h3 : (formatter_node env (generator_node env (load_prompts_node env
            (initialState ct (pyLower gm) it nq fa))) []).1.error_message with _ | e3
        · simp only [runDirect, h1, h2, h3] at hd
          by_cases hcond : (!(validator_node (formatter_node env (generator_node env
              (load_prompts_node env (initialState ct (pyLower gm) it nq fa))) []).1).success &&
              decide ((validator_node (formatter_node env (generator_node env
                (load_prompts_node env (initialState ct (pyLower gm) it nq fa))) []).1).formatter_retries < maxR)) = true
          · rw [if_pos hcond] at hd
            dsimp only at hd
            rw [formatter_retry_node, formatter_node_snd, hfmt2'] at hd
            rcases List.mem_append.mp hd with hm | hm
            · exact List.mem_singleton.mp hm
            · rcases List.mem_singleton.mp hm with rfl
              rw [validator_node_draft, hfmtD']
          · rw [if_neg hcond] at hd
            dsimp only at hd
            rw [hfmt2'] at hd
            exact List.mem_singleton.mp hd
        · simp only [runDirect, h1, h2, h3] at hd
          rw [hfmt2'] at hd
          exact List.mem_singleton.mp hd
      · simp only [runDirect, h1, h2] at hd
        simp at hd
    · simp only [runDirect, h1] at hd
      simp at hd
  · intro fs l h
    have hdraft := graphLoop_completed_draft env maxR recursion_limit _ _ 3 fs l h
    rw [hdraft, hfmtD]
  · rw [load_prompts_node_draft]
    rfl
  · intro h
    rcases generator_node_draft_or_error env
        (load_prompts_node env (initialState ct gm it nq fa)) with ⟨_, hs⟩ | ⟨_, e, he⟩
    · exact hs
    · rw [he] at h
      cases h

/-- Witness for C1: a concrete failing-validation run makes both formatter
invocations, both on the generator's draft `"D"`. -/
theorem pipeline_formatter_retry_bound_witness :
    (pipelineRun envFailingFormat 1 "MCQ" "gemini-pro" "t" 1 none).2.length ≤ 1 + 1 ∧
    some "D" ∈ (pipelineRun envFailingFormat 1 "MCQ" "gemini-pro" "t" 1 none).2 ∧
    some "D" = (generator_node envFailingFormat (load_prompts_node envFailingFormat
      (initialState "MCQ" "gemini-pro" "t" 1 none))).draft_1 :=
  ⟨(pipeline_formatter_retry_bound envFailingFormat 1 "MCQ" "gemini-pro" "t" 1 none).1,
   by decide,
   (pipeline_formatter_retry_bound envFailingFormat 1 "MCQ" "gemini-pro" "t" 1 none).2.2.1
     (some "D") (by decide)⟩

/-! ### The SUMMARY global-fallback acceptance -/

/-- When no (stripped) line is a numbered item, the detailed block walk
finds nothing to check. -/
theorem summaryBlockLoop_no_numbered (lines : List String)
    (h : ∀ l ∈ lines, numberedMatch (pyStrip l) = false) :
    ∀ (fuel i cb : Nat), summaryBlockLoop lines fuel i cb = [] := by
  intro fuel
  induction fuel with
  | zero => intro i cb; rfl
  | succ n ih =>
    intro i cb
    rw [summaryBlockLoop]
    split
    · rename_i hi
      have hmem : lines.getD i "" ∈ lines := by
        rw [List.getD_eq_getElem lines "" hi]
        exact List.getElem_mem _
      dsimp only
      rw [h _ hmem]
      exact ih (i + 1) cb
    · rfl

/-- **C8** (confirmed): a SUMMARY document containing the case-insensitive
phrases "high yield" and "key insight" anywhere and no numbered top-level
item is accepted as `(True, [])` by the global phrase-presence fallback,
with no per-block checks firing. -/
theorem summary_phrase_fallback_accepts (content : String)
    (hhy : containsSub "high yield".data (pyLower content).data = true)
    (hki : containsSub "key insight".data (pyLower content).data = true)
    (hne : pyStrip content ≠ "")
    (hnum : ∀ l ∈ pySplitLines (pyStrip content),
      numberedMatch l = false ∧ numberedMatch (pyStrip l) = false) :
    summaryValidate content = (true, []) := by
  have hfil : (pySplitLines (pyStrip content)).filter (fun l => numberedMatch l) = [] := by
    rw [List.filter_eq_nil_iff]
    intro a ha
    simp [(hnum a ha).1]
  have hloop := summaryBlockLoop_no_numbered (pySplitLines (pyStrip content))
    (fun l hl => (hnum l hl).2) ((pySplitLines (pyStrip content)).length + 1) 0 0
  unfold summaryValidate
  split
  · rename_i hc
    exfalso
    rcases (Bool.or_eq_true _ _).mp hc with hc1 | hc2
    · have : content = "" := of_decide_eq_true hc1
      apply hne
      rw [this]
      rfl
    · exact hne (of_decide_eq_true hc2)
  · simp only [hhy, hki, Bool.and_self, if_true, hfil, hloop, List.length_nil]
    simp

/-- Witness for C8 at a concrete un-numbered document with both phrases. -/
theorem summary_phrase_fallback_accepts_witness :
    summaryValidate "These are high yield facts; the key insight is brevity." = (true, []) :=
  summary_phrase_fallback_accepts "These are high yield facts; the key insight is brevity."
    (by decide) (by decide) (by decide) (by decide)

/-- A matched MCQ title line is non-blank. -/
theorem mcqTitleMatch_ne_empty (s : String) (h : mcqTitleMatch s = true) : s ≠ "" := by
  intro he
  rw [he] at h
  exact absurd h (by decide)

/-- **C5** (confirmed): any single-question MCQ document, well-formed except
that its answer line reads `Correct Answer: E` while the four options are
labelled A–D, validates to `False` with exactly one error: section
`"Answer"`, message `Question 1: Correct answer 'E' not in options`, at the
answer's 1-based line number 7. -/
theorem mcq_answer_not_in_options_single_error
    (doc title vig oA oB oC oD eH eB aH aB ki : String)
    (hsplit : pySplitLines (pyStrip doc) =
      [title, vig, oA, oB, oC, oD, "Correct Answer: E", eH, eB, aH, aB, ki])
    (htitle : mcqTitleMatch (pyStrip title) = true)
    (hvigne : pyStrip vig ≠ "")
    (hvigopt : mcqOptionMatch (pyStrip vig) = false)
    (hoA : mcqOptionMatch (pyStrip oA) = true) (hoAl : pyFirstChar (pyStrip oA) = 'A')
    (hoB : mcqOptionMatch (pyStrip oB) = true) (hoBl : pyFirstChar (pyStrip oB) = 'B')
    (hoC : mcqOptionMatch (pyStrip oC) = true) (hoCl : pyFirstChar (pyStrip oC) = 'C')
    (hoD : mcqOptionMatch (pyStrip oD) = true) (hoDl : pyFirstChar (pyStrip oD) = 'D')
    (heH : mcqExplHeaderMatch (pyStrip eH) = true) (heHne : pyStrip eH ≠ "")
    (heB : pyStrip eB ≠ "")
    (heBa : mcqAnalysisHeaderMatch (pyStrip eB) = false)
    (heBk : mcqKeyInsightsMatch (pyStrip eB) = false)
    (haH : mcqAnalysisHeaderMatch (pyStrip aH) = true) (haHne : pyStrip aH ≠ "")
    (haBk : mcqKeyInsightsMatch (pyStrip aB) = false)
    (haBt : mcqTitleMatch (pyStrip aB) = false)
    (hki : mcqKeyInsightsMatch (pyStrip ki) = true) (hkine : pyStrip ki ≠ "") :
    mcqValidate doc =
      (false, [⟨some 7, "Question 1: Correct answer 'E' not in options", some "Answer"⟩]) := by
  have htne : pyStrip title ≠ "" := mcqTitleMatch_ne_empty _ htitle
  simp +decide [mcqValidate, hsplit, mcqLoop, skipBlanks, processQuestion, vignetteScan,
    optionsScan, answerPhase, explanationPhase, explContentSkip, analysisPhase, analysisSkip,
    insightsPhase, insightsSkip, htne, htitle, hvigne, hvigopt, hoA, hoAl, hoB, hoBl, hoC, hoCl,
    hoD, hoDl, heH, heHne, heB, heBa, heBk, haH, haHne, haBk, haBt, hki, hkine, pyReprCharList]

/-- Witness for C5 at a concrete document (scenario B). -/
theorem mcq_answer_not_in_options_single_error_witness :
    mcqValidate ("Question 1 - Test\nA vignette?\nA) one\nB) two\nC) three\nD) four\n" ++
        "Correct Answer: E\nExplanation:\nBecause reasons.\nAnalysis of Other Options:\n" ++
        "Others wrong.\nKey Insights: Learn.") =
      (false, [⟨some 7, "Question 1: Correct answer 'E' not in options", some "Answer"⟩]) :=
  mcq_answer_not_in_options_single_error
    ("Question 1 - Test\nA vignette?\nA) one\nB) two\nC) three\nD) four\n" ++
      "Correct Answer: E\nExplanation:\nBecause reasons.\nAnalysis of Other Options:\n" ++
      "Others wrong.\nKey Insights: Learn.")
    "Question 1 - Test" "A vignette?" "A) one" "B) two" "C) three" "D) four"
    "Explanation:" "Because reasons." "Analysis of Other Options:" "Others wrong."
    "Key Insights: Learn."
    (by decide) (by decide) (by decide) (by decide) (by decide) (by decide) (by decide)
    (by decide) (by decide) (by decide) (by decide) (by decide) (by decide) (by decide)
    (by decide) (by decide) (by decide) (by decide) (by decide) (by decide) (by decide)
    (by decide) (by decide)

/-- A matched NMCQ vignette-title line is non-blank. -/
theorem nmcqTitleMatch_ne_empty (s : String) (h : nmcqTitleMatch s = true) : s ≠ "" := by
  intro he
  rw [he] at h
  exact absurd h (by decide)

/-- **C7** (confirmed): any NMCQ vignette whose (otherwise well-formed)
sub-question 1 is typed True/False and answered `Maybe` validates to `False`
with exactly one error: section `"Answer"`, message stating the value must
be `'True' or 'False'`, at the answer's 1-based line number 5. -/
theorem nmcq_true_false_answer_single_error
    (doc title body q e qt qx ge : String)
    (hsplit : pySplitLines (pyStrip doc) =
      [title, body, "Questions and Answers:", q, "Answer: Maybe", e])
    (htitle : nmcqTitleMatch (pyStrip title) = true)
    (hbody : pyStrip body ≠ "")
    (hbqa : nmcqQAHeaderMatch (pyStrip body) = false)
    (hbq : nmcqQuestionParse (pyStrip body) = none)
    (hqne : pyStrip q ≠ "")
    (hqt : nmcqTitleMatch (pyStrip q) = false)
    (hqp : nmcqQuestionParse (pyStrip q) = some ("1", qt, qx))
    (hdrop : containsSub "drop".data (pyLower (pyLower qt)).data = false)
    (htf : containsSub "true/false".data (pyLower (pyLower qt)).data = true)
    (hexp : nmcqExplanationParse (pyStrip e) = some ge)
    (hgene : pyStrip ge ≠ "") :
    nmcqValidate doc =
      (false, [⟨some 5, "Vignette 1, Question 1: True/False answer must be 'True' or 'False'",
        some "Answer"⟩]) := by
  have htne : pyStrip title ≠ "" := nmcqTitleMatch_ne_empty _ htitle
  have haM : nmcqAnswerParse (pyStrip "Answer: Maybe") = some "Maybe" := rfl
  have hqaH : nmcqQAHeaderMatch (pyStrip "Questions and Answers:") = true := rfl
  have hqaQ : nmcqQuestionParse (pyStrip "Questions and Answers:") = none := rfl
  have hqaT : nmcqTitleMatch (pyStrip "Questions and Answers:") = false := rfl
  simp +decide [nmcqValidate, hsplit, nmcqLoop, skipBlanks, nmcqBodyScan, nmcqQLoop,
    nmcqQuestionBody, nmcqExpSkip, htne, htitle, hbody, hbqa, hbq, hqne, hqt, hqp, hdrop, htf,
    hexp, hgene, haM, hqaH, hqaQ, hqaT]

/-- Witness for C7 at a concrete document (scenario C). -/
theorem nmcq_true_false_answer_single_error_witness :
    nmcqValidate ("Clinical Vignette 1: Fever\nA patient presents.\nQuestions and Answers:\n" ++
        "1. True/False: Is it viral?\nAnswer: Maybe\nExplanation: Serology pending.") =
      (false, [⟨some 5, "Vignette 1, Question 1: True/False answer must be 'True' or 'False'",
        some "Answer"⟩]) :=
  nmcq_true_false_answer_single_error
    ("Clinical Vignette 1: Fever\nA patient presents.\nQuestions and Answers:\n" ++
      "1. True/False: Is it viral?\nAnswer: Maybe\nExplanation: Serology pending.")
    "Clinical Vignette 1: Fever" "A patient presents." "1. True/False: Is it viral?"
    "Explanation: Serology pending." "True/False" "Is it viral?" "Serology pending."
    (by decide) (by decide) (by decide) (by decide) (by decide) (by decide) (by decide)
    (by decide) (by decide) (by decide) (by decide) (by decide)

/-! ### The MCQ options count/sequence check over an arbitrary option list -/

/-- `optionsScan` consumes exactly the run of option-matching lines,
collecting their first letters. -/
theorem optionsScan_spec : ∀ (os : List String) (i : Nat) (acc : List Char) (rest : List String),
    (∀ o ∈ os, mcqOptionMatch (pyStrip o) = true) →
    (∀ r, rest.head? = some r → mcqOptionMatch (pyStrip r) = false) →
    optionsScan i (os ++ rest) acc =
      (acc ++ os.map (fun o => pyFirstChar (pyStrip o)), i + os.length, rest) := by
  intro os
  induction os with
  | nil =>
    intro i acc rest _ hr
    cases rest with
    | nil => simp [optionsScan]
    | cons r rs =>
      simp only [List.nil_append]
      rw [optionsScan, if_neg (by simp [hr r rfl])]
      simp
  | cons o1 os' ih =>
    intro i acc rest h hr
    simp only [List.cons_append]
    rw [optionsScan, if_pos (by simp [h o1 (by simp)])]
    rw [ih (i + 1) (acc ++ [pyFirstChar (pyStrip o1)]) rest (fun o ho => h o (by simp [ho])) hr]
    simp [Prod.ext_iff, List.append_assoc]
    omega

/-- After a non-option vignette line and an arbitrary non-empty option run,
`processQuestion` emits the count-range error, resp. the sequence error, on
the collected letters whenever the corresponding condition fails. -/
theorem processQuestion_options_mem (qstart qc i0 : Nat) (vig : String) (os rest : List String)
    (hvigopt : mcqOptionMatch (pyStrip vig) = false)
    (hos : ∀ o ∈ os, mcqOptionMatch (pyStrip o) = true)
    (hosne : os ≠ [])
    (hrest : ∀ r, rest.head? = some r → mcqOptionMatch (pyStrip r) = false) :
    ((os.length < 4 ∨ 5 < os.length) →
      (⟨some (i0 + 2), "Question " ++ toString qc ++ ": Found " ++ toString os.length ++
        " options, expected 4-5", some "Options"⟩ : ValidationError) ∈
        (processQuestion qstart qc i0 (vig :: (os ++ rest))).1) ∧
    (os.map (fun o => pyFirstChar (pyStrip o)) ≠ (['A', 'B', 'C', 'D', 'E']).take os.length →
      (⟨some (i0 + 2), "Question " ++ toString qc ++ ": Options not in sequence. Found " ++
        pyReprCharList (os.map (fun o => pyFirstChar (pyStrip o))), some "Options"⟩ :
          ValidationError) ∈ (processQuestion qstart qc i0 (vig :: (os ++ rest))).1) := by
  obtain ⟨o1, os', rfl⟩ : ∃ a l, os = a :: l := by
    cases os with
    | nil => exact absurd rfl hosne
    | cons a l => exact ⟨a, l, rfl⟩
  have hv : vignetteScan i0 (vig :: ((o1 :: os') ++ rest)) false =
      ((false || decide (pyStrip vig ≠ "")), i0 + 1, (o1 :: os') ++ rest) := by
    simp [vignetteScan, hvigopt, hos o1 (by simp)]
  constructor <;> intro hc
  · simp only [processQuestion]
    rw [hv]
    dsimp only
    rw [optionsScan_spec (o1 :: os') (i0 + 1) [] rest hos hrest]
    dsimp only
    simp only [List.nil_append, List.length_map]
    have hcond : (decide ((o1 :: os').length < 4) || decide (5 < (o1 :: os').length)) = true := by
      rcases hc with h | h <;> simp at h ⊢ <;> omega
    refine List.mem_append_left _ (List.mem_append_left _ (List.mem_append_left _
      (List.mem_append_left _ (List.mem_append_left _ (List.mem_append_right _ ?_)))))
    rw [if_pos hcond]
    exact List.mem_singleton.mpr rfl
  · simp only [processQuestion]
    rw [hv]
    dsimp only
    rw [optionsScan_spec (o1 :: os') (i0 + 1) [] rest hos hrest]
    dsimp only
    simp only [List.nil_append, List.length_map]
    refine List.mem_append_left _ (List.mem_append_left _ (List.mem_append_left _
      (List.mem_append_left _ (List.mem_append_right _ ?_))))
    rw [if_pos hc]
    exact List.mem_singleton.mpr rfl

/-- When the first non-blank line is a matching title, the errors of the
first question's processing are contained in the loop's output. -/
theorem mcqLoop_mem_of_first (fuel i : Nat) (l : String) (ls : List String) (qc : Nat)
    (hne : pyStrip l ≠ "") (ht : mcqTitleMatch (pyStrip l) = true)
    (e : ValidationError) (he : e ∈ (processQuestion i (qc + 1) (i + 1) ls).1) :
    e ∈ (mcqLoop (fuel + 1) i (l :: ls) qc).2 := by
  have hsb : skipBlanks i (l :: ls) = (i, l :: ls) := by
    rw [skipBlanks, if_neg hne]
  rw [mcqLoop, hsb]
  simp only [ht, Bool.not_true, Bool.false_eq_true, if_false]
  exact List.mem_append_left _ he

/-- **C6** (confirmed): for an MCQ question whose option run is an arbitrary
non-empty list of option lines, a count outside 4–5 always yields an
`Options`-section error, and a letter list that is not the strict
consecutive prefix of A–E (a gap or out-of-order labelling, even with the
right count) always yields an `Options`-section error. -/
theorem mcq_options_count_and_sequence_errors
    (doc title vig : String) (os rlines : List String)
    (hsplit : pySplitLines (pyStrip doc) = title :: vig :: (os ++ rlines))
    (htitle : mcqTitleMatch (pyStrip title) = true)
    (hvigopt : mcqOptionMatch (pyStrip vig) = false)
    (hos : ∀ o ∈ os, mcqOptionMatch (pyStrip o) = true)
    (hosne : os ≠ [])
    (hrest : ∀ r, rlines.head? = some r → mcqOptionMatch (pyStrip r) = false) :
    ((os.length < 4 ∨ 5 < os.length) →
      ∃ e ∈ (mcqValidate doc).2, e.sectionName = some "Options") ∧
    (os.map (fun o => pyFirstChar (pyStrip o)) ≠ (['A', 'B', 'C', 'D', 'E']).take os.length →
      ∃ e ∈ (mcqValidate doc).2, e.sectionName = some "Options") := by
  have htne : pyStrip title ≠ "" := mcqTitleMatch_ne_empty _ htitle
  have hval2 : (mcqValidate doc).2 =
      (mcqLoop ((title :: vig :: (os ++ rlines)).length + 1) 0
        (title :: vig :: (os ++ rlines)) 0).2 := by
    simp only [mcqValidate, hsplit]
    rw [if_neg (by simp)]
    rcases mcqLoop ((title :: vig :: (os ++ rlines)).length + 1) 0
        (title :: vig :: (os ++ rlines)) 0 with ⟨ab, errs⟩
    cases ab <;> simp
  have hopts := processQuestion_options_mem 0 1 1 vig os rlines hvigopt hos hosne hrest
  have hmem : ∀ e', e' ∈ (processQuestion 0 1 1 (vig :: (os ++ rlines))).1 →
      e' ∈ (mcqValidate doc).2 := by
    intro e' he'
    rw [hval2]
    exact mcqLoop_mem_of_first _ 0 title _ 0 htne htitle e' he'
  exact ⟨fun hlen => ⟨_, hmem _ (hopts.1 hlen), rfl⟩,
    fun hneq => ⟨_, hmem _ (hopts.2 hneq), rfl⟩⟩

/-- Witness for C6: four options labelled A, B, C, E (right count, gap at D)
produce an `Options` error. -/
theorem mcq_options_count_and_sequence_errors_witness :
    ∃ e ∈ (mcqValidate "Question 1 - T\nStem?\nA) a\nB) b\nC) c\nE) e\nDone").2,
      e.sectionName = some "Options" :=
  (mcq_options_count_and_sequence_errors
    "Question 1 - T\nStem?\nA) a\nB) b\nC) c\nE) e\nDone"
    "Question 1 - T" "Stem?" ["A) a", "B) b", "C) c", "E) e"] ["Done"]
    (by decide) (by decide) (by decide) (by decide) (by decide) (by decide)).2 (by decide)

/-! ### Substring-search and strip lemmas for the SUMMARY block analysis -/

theorem findSub_nil_sub (l : List Char) : findSub [] l = some 0 := by
  cases l <;> simp [findSub, listStarts]

theorem listStarts_append (sub l1 l2 : List Char) (h : listStarts sub l1 = true) :
    listStarts sub (l1 ++ l2) = true := by
  induction sub generalizing l1 with
  | nil => simp [listStarts]
  | cons a as ih =>
    cases l1 with
    | nil => simp [listStarts] at h
    | cons b bs =>
      simp only [List.cons_append, listStarts, Bool.and_eq_true] at h ⊢
      exact ⟨h.1, ih bs h.2⟩

theorem listStarts_of_append (sub : List Char) : ∀ (l1 l2 : List Char),
    listStarts sub (l1 ++ l2) = true → sub.length ≤ l1.length → listStarts sub l1 = true := by
  induction sub with
  | nil => intro l1 l2 _ _; rfl
  | cons a as ih =>
    intro l1 l2 h hle
    cases l1 with
    | nil => simp at hle
    | cons b bs =>
      simp only [List.cons_append, listStarts, Bool.and_eq_true] at h ⊢
      exact ⟨h.1, ih bs l2 h.2 (by simpa using hle)⟩

/-- `findSub` locates the first occurrence: if `sub` occurs at index `k`
wholly inside `l1` and nowhere earlier, it is found at `k` in `l1 ++ l2`. -/
theorem findSub_append_at (sub : List Char) : ∀ (l1 l2 : List Char) (k : Nat),
    listStarts sub (l1.drop k) = true →
    (∀ j, j < k → listStarts sub (l1.drop j) = false) →
    k + sub.length ≤ l1.length →
    findSub sub (l1 ++ l2) = some k := by
  intro l1
  induction l1 with
  | nil =>
    intro l2 k _ _ hfit
    simp only [List.length_nil, Nat.le_zero] at hfit
    have hk0 : k = 0 := by omega
    have hs0 : sub.length = 0 := by omega
    subst hk0
    rcases sub with _ | ⟨c, cs⟩
    · simpa using findSub_nil_sub l2
    · simp at hs0
  | cons c t ih =>
    intro l2 k hk hb hfit
    cases k with
    | zero =>
      have hs : listStarts sub ((c :: t) ++ l2) = true :=
        listStarts_append _ _ _ (by simpa using hk)
      rw [List.cons_append, findSub, if_pos (by simpa using hs)]
    | succ k' =>
      have hhead : ¬listStarts sub (c :: (t ++ l2)) = true := by
        intro htrue
        have hle : sub.length ≤ (c :: t).length := by
          simp only [List.length_cons] at hfit ⊢
          omega
        have hst := listStarts_of_append sub (c :: t) l2 (by simpa using htrue) hle
        have hb0 := hb 0 (Nat.succ_pos _)
        rw [List.drop_zero] at hb0
        rw [hb0] at hst
        cases hst
      rw [List.cons_append, findSub, if_neg hhead,
        ih l2 k' (by simpa [List.drop_succ_cons] using hk)
          (fun j hj => by simpa [List.drop_succ_cons] using hb (j + 1) (by omega))
          (by simp only [List.length_cons] at hfit ⊢; omega)]
      rfl

theorem containsSub_append_left (sub : List Char) : ∀ (l1 l2 : List Char),
    containsSub sub l1 = true → containsSub sub (l1 ++ l2) = true := by
  intro l1
  induction l1 with
  | nil =>
    intro l2 h
    unfold containsSub at h
    rcases sub with _ | ⟨c, cs⟩
    · unfold containsSub
      rw [List.nil_append, findSub_nil_sub]
      rfl
    · rw [findSub] at h
      simp at h
  | cons c t ih =>
    intro l2 h
    unfold containsSub at h ⊢
    rw [findSub] at h
    rw [List.cons_append, findSub]
    by_cases hs2 : listStarts sub (c :: (t ++ l2)) = true
    · rw [if_pos hs2]
      rfl
    · rw [if_neg hs2]
      by_cases hs : listStarts sub (c :: t) = true
      · exact absurd (listStarts_append _ _ _ hs) (by simpa using hs2)
      · rw [if_neg hs] at h
        have ht : containsSub sub (t ++ l2) = true := ih l2 (by simpa [containsSub] using h)
        simpa [containsSub] using ht

theorem dropWhile_length_le (p : Char → Bool) (l : List Char) :
    (l.dropWhile p).length ≤ l.length := by
  induction l with
  | nil => simp
  | cons c t ih =>
    rw [List.dropWhile_cons]
    split
    · exact le_trans ih (Nat.le_succ _)
    · simp

theorem dropWhile_eq_self_of_length (p : Char → Bool) (l : List Char)
    (h : (l.dropWhile p).length = l.length) : l.dropWhile p = l := by
  induction l with
  | nil => rfl
  | cons c t _ =>
    rw [List.dropWhile_cons] at h ⊢
    by_cases hp : p c = true
    · rw [if_pos hp] at h
      have := dropWhile_length_le p t
      simp at h
      omega
    · rw [if_neg hp]

/-- A non-empty string invariant under `strip` ends in a non-whitespace
character. -/
theorem strip_invariant_last (p : String) (hinv : pyStrip p = p) (hne : p ≠ "") :
    ∃ q d, p.data = q ++ [d] ∧ pyWs d = false := by
  have hd : pyStripL p.data = p.data := congrArg String.data hinv
  have hlen1 : (lstrip p.data).length ≤ p.data.length := dropWhile_length_le _ _
  have hlen2 : (rstrip (lstrip p.data)).length ≤ (lstrip p.data).length := by
    unfold rstrip
    simpa using dropWhile_length_le pyWs (lstrip p.data).reverse
  have hleneq : (pyStripL p.data).length = p.data.length := by rw [hd]
  have hlstrip : lstrip p.data = p.data := by
    apply dropWhile_eq_self_of_length
    unfold pyStripL at hleneq
    unfold lstrip at hlen1 hlen2 hleneq
    omega
  have hr : rstrip p.data = p.data := by
    unfold pyStripL at hd
    rw [hlstrip] at hd
    exact hd
  rcases List.eq_nil_or_concat p.data with hnil | ⟨q, d, hqd⟩
  · exact absurd (String.ext hnil) hne
  · rw [List.concat_eq_append] at hqd
    refine ⟨q, d, hqd, ?_⟩
    by_contra hws
    have hwsT : pyWs d = true := by
      rcases hx : pyWs d with _ | _
      · exact absurd hx hws
      · rfl
    have hlen3 : (rstrip (q ++ [d])).length ≤ q.length := by
      unfold rstrip
      rw [List.reverse_append]
      simp only [List.reverse_cons, List.reverse_nil, List.nil_append, List.singleton_append]
      rw [List.dropWhile_cons, if_pos hwsT]
      simpa using dropWhile_length_le pyWs q.reverse
    rw [hqd] at hr
    rw [hr] at hlen3
    simp at hlen3

theorem pyStripL_cons_head (c : Char) (t : List Char) (hc : pyWs c = false) :
    ∃ t', pyStripL (c :: t) = c :: t' := by
  unfold pyStripL lstrip
  rw [List.dropWhile_cons, if_neg (by simp [hc])]
  unfold rstrip
  rw [show (c :: t).reverse = t.reverse ++ [c] by simp]
  rw [List.dropWhile_append]
  split
  · refine ⟨[], ?_⟩
    rw [List.dropWhile_cons, if_neg (by simp [hc])]
    simp
  · exact ⟨(List.dropWhile pyWs t.reverse).reverse, by simp⟩

/-- `rstrip` leaves a list ending in a non-whitespace character unchanged. -/
theorem rstrip_concat_eq (q : List Char) (d : Char) (hd : pyWs d = false) :
    rstrip (q ++ [d]) = q ++ [d] := by
  unfold rstrip
  rw [List.reverse_append]
  simp only [List.reverse_cons, List.reverse_nil, List.nil_append, List.singleton_append]
  rw [List.dropWhile_cons, if_neg (by simp [hd])]
  simp

theorem numberedMatch_cons_false (c : Char) (t : List Char) (hws : pyWs c = false)
    (hd : isDigitC c = false) : numberedMatch ⟨c :: t⟩ = false := by
  unfold numberedMatch grabDigits1
  simp [List.dropWhile_cons, hws, List.takeWhile_cons, hd]

theorem numberedMatch_strip_cons_false (c : Char) (t : List Char) (hws : pyWs c = false)
    (hd : isDigitC c = false) : numberedMatch (pyStrip ⟨c :: t⟩) = false := by
  obtain ⟨t', ht'⟩ := pyStripL_cons_head c t hws
  show numberedMatch ⟨pyStripL (c :: t)⟩ = false
  rw [ht']
  exact numberedMatch_cons_false c t' hws hd

/-- The first-block body of the two-block SUMMARY family, in data form. -/
theorem joinNl_block1_data (p1 : String) :
    (joinNl ["1. Renal", "High Yield Points: core facts", "Key Insights: " ++ p1]).data =
      "1. Renal\nHigh Yield Points: core facts\nKey Insights: ".data ++ p1.data := by
  show ((("1. Renal" ++ "\n") ++
    (("High Yield Points: core facts" ++ "\n") ++ ("Key Insights: " ++ p1)))).data = _
  simp only [String.data_append, List.append_assoc, List.cons_append, List.nil_append]

/-- The second-block body, in data form. -/
theorem joinNl_block2_data (p2 : String) :
    (joinNl ["2. Cardio", "High Yield Points: more facts", "Key Insights: " ++ p2]).data =
      "2. Cardio\nHigh Yield Points: more facts\nKey Insights: ".data ++ p2.data := by
  show ((("2. Cardio" ++ "\n") ++
    (("High Yield Points: more facts" ++ "\n") ++ ("Key Insights: " ++ p2)))).data = _
  simp only [String.data_append, List.append_assoc, List.cons_append, List.nil_append]

/-- A `Key Insights:` line is never a numbered item (raw). -/
theorem keyInsights_line_not_numbered (p : String) :
    numberedMatch ("Key Insights: " ++ p) = false := by
  have he : ("Key Insights: " ++ p) =
      (⟨'K' :: ("ey Insights: ".data ++ p.data)⟩ : String) := by
    apply String.ext
    rw [String.data_append]
    rfl
  rw [he]
  exact numberedMatch_cons_false 'K' _ (by decide) (by decide)

/-- A `Key Insights:` line is never a numbered item (stripped). -/
theorem keyInsights_line_not_numbered_strip (p : String) :
    numberedMatch (pyStrip ("Key Insights: " ++ p)) = false := by
  have he : ("Key Insights: " ++ p) =
      (⟨'K' :: ("ey Insights: ".data ++ p.data)⟩ : String) := by
    apply String.ext
    rw [String.data_append]
    rfl
  rw [he]
  exact numberedMatch_strip_cons_false 'K' _ (by decide) (by decide)

/-- Stripping the `"s: " ++ payload` tail of a key-insights block is the
identity when the payload is non-empty and strip-invariant. -/
theorem strip_sColon_tail (p : String) (hp : pyStrip p = p) (hpne : p ≠ "") :
    pyStripL ('s' :: ':' :: ' ' :: p.data) = 's' :: ':' :: ' ' :: p.data := by
  obtain ⟨q, d, hqd, hd⟩ := strip_invariant_last p hp hpne
  unfold pyStripL lstrip
  rw [List.dropWhile_cons, if_neg (by decide)]
  rw [hqd, show 's' :: ':' :: ' ' :: (q ++ [d]) = ('s' :: ':' :: ' ' :: q) ++ [d] from by simp]
  exact rstrip_concat_eq _ _ hd

set_option maxHeartbeats 2000000 in
/-- **C9** (amended): on the two-block SUMMARY family, the per-block
key-insights check measures the stripped text from 11 characters past the
start of the `key insight` match — i.e. `"s: " ++ payload` — against a
strict `< 20` bound, flagging a block exactly when its payload is shorter
than 17 characters, one error per violating block. -/
theorem summary_key_insights_short_error_iff (content p1 p2 : String)
    (hsplit : pySplitLines (pyStrip content) =
      ["1. Renal", "High Yield Points: core facts", "Key Insights: " ++ p1,
       "2. Cardio", "High Yield Points: more facts", "Key Insights: " ++ p2])
    (hhy : containsSub "high yield".data (pyLower content).data = true)
    (hki : containsSub "key insight".data (pyLower content).data = true)
    (hp1 : pyStrip p1 = p1) (hp1ne : p1 ≠ "")
    (hp2 : pyStrip p2 = p2) (hp2ne : p2 ≠ "") :
    summaryValidate content =
      (((if p1.length < 17 then
          [(⟨some 0, "Summary Block 1: Key Insights appears empty or too short",
            some "Key Insights"⟩ : ValidationError)] else []) ++
        (if p2.length < 17 then
          [(⟨some 3, "Summary Block 2: Key Insights appears empty or too short",
            some "Key Insights"⟩ : ValidationError)] else [])).isEmpty,
       (if p1.length < 17 then
          [(⟨some 0, "Summary Block 1: Key Insights appears empty or too short",
            some "Key Insights"⟩ : ValidationError)] else []) ++
       (if p2.length < 17 then
          [(⟨some 3, "Summary Block 2: Key Insights appears empty or too short",
            some "Key Insights"⟩ : ValidationError)] else [])) := by
  have hne : pyStrip content ≠ "" := by
    intro h
    rw [h] at hsplit
    have hlen := congrArg List.length hsplit
    simp [pySplitLines, splitAny, splitAnyAux] at hlen
  have hraw1 := keyInsights_line_not_numbered p1
  have hraw2 := keyInsights_line_not_numbered p2
  have hstr1 := keyInsights_line_not_numbered_strip p1
  have hstr2 := keyInsights_line_not_numbered_strip p2
  have hlow1 : List.map pyLowerChar
      "1. Renal\nHigh Yield Points: core facts\nKey Insights: ".data =
      "1. renal\nhigh yield points: core facts\nkey insights: ".data := by decide
  have hlow2 : List.map pyLowerChar
      "2. Cardio\nHigh Yield Points: more facts\nKey Insights: ".data =
      "2. cardio\nhigh yield points: more facts\nkey insights: ".data := by decide
  have hfind1 : findSub "key insight".data (List.map pyLowerChar
      (joinNl ["1. Renal", "High Yield Points: core facts",
        "Key Insights: " ++ p1]).data) = some 39 := by
    rw [joinNl_block1_data, List.map_append, hlow1]
    exact findSub_append_at _ _ _ 39 (by decide) (by decide) (by decide)
  have hfind2 : findSub "key insight".data (List.map pyLowerChar
      (joinNl ["2. Cardio", "High Yield Points: more facts",
        "Key Insights: " ++ p2]).data) = some 40 := by
    rw [joinNl_block2_data, List.map_append, hlow2]
    exact findSub_append_at _ _ _ 40 (by decide) (by decide) (by decide)
  have hhy1 : containsSub "high yield".data (List.map pyLowerChar
      (joinNl ["1. Renal", "High Yield Points: core facts",
        "Key Insights: " ++ p1]).data) = true := by
    rw [joinNl_block1_data, List.map_append, hlow1]
    exact containsSub_append_left _ _ _ (by decide)
  have hki1 : containsSub "key insight".data (List.map pyLowerChar
      (joinNl ["1. Renal", "High Yield Points: core facts",
        "Key Insights: " ++ p1]).data) = true := by
    rw [joinNl_block1_data, List.map_append, hlow1]
    exact containsSub_append_left _ _ _ (by decide)
  have hhy2 : containsSub "high yield".data (List.map pyLowerChar
      (joinNl ["2. Cardio", "High Yield Points: more facts",
        "Key Insights: " ++ p2]).data) = true := by
    rw [joinNl_block2_data, List.map_append, hlow2]
    exact containsSub_append_left _ _ _ (by decide)
  have hki2 : containsSub "key insight".data (List.map pyLowerChar
      (joinNl ["2. Cardio", "High Yield Points: more facts",
        "Key Insights: " ++ p2]).data) = true := by
    rw [joinNl_block2_data, List.map_append, hlow2]
    exact containsSub_append_left _ _ _ (by decide)
  have hdrop1 : (joinNl ["1. Renal", "High Yield Points: core facts",
      "Key Insights: " ++ p1]).data.drop 50 = 's' :: ':' :: ' ' :: p1.data := by
    rw [joinNl_block1_data, List.drop_append_eq_append_drop]
    rw [show ("1. Renal\nHigh Yield Points: core facts\nKey Insights: ".data).drop 50 =
      ['s', ':', ' '] from by decide]
    rw [show 50 - "1. Renal\nHigh Yield Points: core facts\nKey Insights: ".data.length = 0
      from by decide]
    simp
  have hdrop2 : (joinNl ["2. Cardio", "High Yield Points: more facts",
      "Key Insights: " ++ p2]).data.drop 51 = 's' :: ':' :: ' ' :: p2.data := by
    rw [joinNl_block2_data, List.drop_append_eq_append_drop]
    rw [show ("2. Cardio\nHigh Yield Points: more facts\nKey Insights: ".data).drop 51 =
      ['s', ':', ' '] from by decide]
    rw [show 51 - "2. Cardio\nHigh Yield Points: more facts\nKey Insights: ".data.length = 0
      from by decide]
    simp
  have hsc1 := strip_sColon_tail p1 hp1 hp1ne
  have hsc2 := strip_sColon_tail p2 hp2 hp2ne
  have hlen1 : p1.length = p1.data.length := rfl
  have hlen2 : p2.length = p2.data.length := rfl
  unfold summaryValidate
  split
  · rename_i hc
    exfalso
    rcases (Bool.or_eq_true _ _).mp hc with hc1 | hc2
    · exact hne (by rw [of_decide_eq_true hc1]; rfl)
    · exact hne (of_decide_eq_true hc2)
  · by_cases h1 : p1.length < 17 <;> by_cases h2 : p2.length < 17
    · have h1' : p1.length + 1 + 1 + 1 < 20 := by omega
      have h2' : p2.length + 1 + 1 + 1 < 20 := by omega
      simp +decide [hsplit, hhy, hki, summaryBlockLoop, summaryBlockEndAux, hraw1, hraw2,
        hstr1, hstr2, hfind1, hfind2, hhy1, hki1, hhy2, hki2, hdrop1, hdrop2, hsc1, hsc2,
        h1, h2, h1', h2']
    · have h1' : p1.length + 1 + 1 + 1 < 20 := by omega
      have h2' : ¬p2.length + 1 + 1 + 1 < 20 := by omega
      simp +decide [hsplit, hhy, hki, summaryBlockLoop, summaryBlockEndAux, hraw1, hraw2,
        hstr1, hstr2, hfind1, hfind2, hhy1, hki1, hhy2, hki2, hdrop1, hdrop2, hsc1, hsc2,
        h1, h2, h1', h2']
    · have h1' : ¬p1.length + 1 + 1 + 1 < 20 := by omega
      have h2' : p2.length + 1 + 1 + 1 < 20 := by omega
      simp +decide [hsplit, hhy, hki, summaryBlockLoop, summaryBlockEndAux, hraw1, hraw2,
        hstr1, hstr2, hfind1, hfind2, hhy1, hki1, hhy2, hki2, hdrop1, hdrop2, hsc1, hsc2,
        h1, h2, h1', h2']
    · have h1' : ¬p1.length + 1 + 1 + 1 < 20 := by omega
      have h2' : ¬p2.length + 1 + 1 + 1 < 20 := by omega
      simp +decide [hsplit, hhy, hki, summaryBlockLoop, summaryBlockEndAux, hraw1, hraw2,
        hstr1, hstr2, hfind1, hfind2, hhy1, hki1, hhy2, hki2, hdrop1, hdrop2, hsc1, hsc2,
        h1, h2, h1', h2']

/-- Witness for C9: a 10-character first payload errors, a 25-character
second payload does not. -/
theorem summary_key_insights_short_error_iff_witness :
    summaryValidate ("1. Renal\nHigh Yield Points: core facts\nKey Insights: ABCDEFGHIJ\n2. Cardio\nHigh Yield Points: more facts\nKey Insights: AAAAAAAAAAAAAAAAAAAAAAAAA") =
      (false,
        [(⟨some 0, "Summary Block 1: Key Insights appears empty or too short",
          some "Key Insights"⟩ : ValidationError)]) := by
  have h := summary_key_insights_short_error_iff
    "1. Renal\nHigh Yield Points: core facts\nKey Insights: ABCDEFGHIJ\n2. Cardio\nHigh Yield Points: more facts\nKey Insights: AAAAAAAAAAAAAAAAAAAAAAAAA"
    "ABCDEFGHIJ" "AAAAAAAAAAAAAAAAAAAAAAAAA"
    (by decide) (by decide) (by decide) (by decide) (by decide) (by decide) (by decide)
  rw [h]
  decide

end Microlearning
